import Mathlib

/-!
# Formal model of the Life Motivator points-economy engine

A shallow embedding, in Lean 4, of the business logic of the Gamify
("Life Motivator") application: level calculation, session point accrual,
the append-only ledger, shop redemption with cooldowns, and the personal
configuration importer.  JavaScript `number` values are modelled as `ℚ`
(all values occurring in the program are exact decimals), timestamps as
`ℤ` (milliseconds), and the Dexie tables as lists of records with
auto-increment id counters kept in the database state.
-/

namespace Gamify

/-- JS `Math.round x = ⌊x + 0.5⌋` for finite inputs (ties go toward +∞). -/
def jsRound (q : ℚ) : ℤ := ⌊q + 1/2⌋

/-- Rounding to the nearest integer with ties away from zero (the rounding
mode named by the specification text). -/
def roundHalfAwayFromZero (q : ℚ) : ℤ :=
  if 0 ≤ q then ⌊q + 1/2⌋ else ⌈q - 1/2⌉

/-- `LEVEL_THRESHOLDS` from types.ts (hours of lifetime work per level). -/
def LEVEL_THRESHOLDS : List ℚ := [0, 25, 75, 150, 300, 600, 1000, 1600, 2500, 4000]

/-- `MULTIPLIERS` from types.ts (point multiplier per level). -/
def MULTIPLIERS : List ℚ := [1.0, 1.1, 1.25, 1.4, 1.6, 1.85, 2.1, 2.4, 2.75, 3.2]

/-- `DAILY_HARD_CAP_MINUTES = 12 * 60` from types.ts. -/
def DAILY_HARD_CAP_MINUTES : ℤ := 12 * 60

/-- The `for`/`break` loop body of `getLevelAndMultiplier`: walk the zipped
threshold/multiplier table, keeping the last `(i+1, M[i])` whose threshold
is satisfied, and stop at the first threshold that is not. -/
def levelLoop : List (ℚ × ℚ) → ℚ → ℕ → ℕ × ℚ → ℕ × ℚ
  | [], _, _, acc => acc
  | (t, m) :: rest, hours, i, acc =>
      if t ≤ hours then levelLoop rest hours (i + 1) (i + 1, m) else acc

/-- `getLevelAndMultiplier` from database.ts: convert lifetime minutes to
hours and scan the threshold table from the bottom, breaking at the first
threshold exceeding `hours`; starts from `level = 1`, `multiplier = 1.0`. -/
def getLevelAndMultiplier (totalMinutes : ℚ) : ℕ × ℚ :=
  levelLoop (LEVEL_THRESHOLDS.zip MULTIPLIERS) (totalMinutes / 60) 0 (1, 1)

/-- `calculateSessionPoints` from database.ts. -/
def calculateSessionPoints (durationMinutes baseRate multiplier : ℚ)
    (applySoftCapPenalty : Bool) : ℤ :=
  if durationMinutes < 5 then 0
  else
    let hours := durationMinutes / 60
    let points := hours * baseRate * multiplier
    let points := if applySoftCapPenalty then points * (1 - 3/10) else points
    jsRound points

/-- JS `a || b` for an optional number: `undefined` and `0` are falsy. -/
def jsOrDefault (o : Option ℚ) (dflt : ℚ) : ℚ :=
  match o with
  | some v => if v = 0 then dflt else v
  | none => dflt

/-- `Session.source` (types.ts). -/
inductive Source where
  | timer
  | manual
deriving DecidableEq

/-- `LedgerEntry.type` (types.ts). -/
inductive EntryKind where
  | earn_session
  | earn_bonus
  | spend_shop
deriving DecidableEq

/-- `Domain` record (types.ts, v2 shape). -/
structure Domain where
  id : ℕ
  configId : Option String
  name : String
  baseRate : ℚ
  lifetimeMinutes : ℚ
  level : ℕ
  multiplier : ℚ
  dailySoftCapMinutes : Option ℚ
  dailyHardCapMinutes : Option ℚ
  colorHint : Option String
  isActive : Bool
deriving DecidableEq

/-- `Activity` record (types.ts, v2 shape). -/
structure Activity where
  id : ℕ
  configId : Option String
  domainId : ℕ
  domainConfigId : Option String
  name : String
  tags : Option (List String)
  rateOverride : Option ℚ
  deepWorkEligible : Option Bool
  minBlockMinutes : Option ℚ
  notesPrompt : Option String
  isActive : Bool
deriving DecidableEq

/-- `Session` record (types.ts). -/
structure Session where
  id : ℕ
  startTime : ℤ
  endTime : ℤ
  durationMinutes : ℤ
  domainId : ℕ
  activityId : Option ℕ
  pointsAwarded : ℤ
  notes : Option String
  source : Source
  reviewFlag : Bool
deriving DecidableEq

/-- `Bonus` record (types.ts). -/
structure Bonus where
  id : ℕ
  timestamp : ℤ
  title : String
  points : ℤ
  notes : Option String
deriving DecidableEq

/-- `ShopItem` record (types.ts, v2 shape). -/
structure ShopItem where
  id : ℕ
  category : String
  name : String
  pricePoints : ℚ
  description : Option String
  cooldownDays : Option ℚ
  requiresReview : Bool
  requirements : Option (List String)
  realCostEstimate : Option String
  isActive : Bool
  achievedCount : Option ℕ
deriving DecidableEq

/-- `Redemption` record (types.ts). -/
structure Redemption where
  id : ℕ
  timestamp : ℤ
  shopItemId : ℕ
  pricePoints : ℚ
  notes : Option String
deriving DecidableEq

/-- `LedgerEntry` record (types.ts). -/
structure LedgerEntry where
  id : ℕ
  timestamp : ℤ
  kind : EntryKind
  pointsDelta : ℚ
  referenceId : ℕ
  description : String
deriving DecidableEq

/-- The Dexie database `LifeMotivatorDB`: one list per table plus the
auto-increment `++id` counter of each table (Dexie keeps the counter across
`clear()`). -/
structure DB where
  domains : List Domain
  activities : List Activity
  sessions : List Session
  bonuses : List Bonus
  shopItems : List ShopItem
  redemptions : List Redemption
  ledger : List LedgerEntry
  nextDomainId : ℕ
  nextActivityId : ℕ
  nextSessionId : ℕ
  nextBonusId : ℕ
  nextShopItemId : ℕ
  nextRedemptionId : ℕ
  nextLedgerId : ℕ
deriving DecidableEq

/-- `getTodaysSessions` (database.ts): sessions whose `startTime` lies in
`[todayStart, todayStart + 24h)`; `todayStart` is the device's local
midnight, passed here as a parameter. -/
def getTodaysSessions (db : DB) (todayStart : ℤ) : List Session :=
  db.sessions.filter
    (fun s => todayStart ≤ s.startTime ∧ s.startTime < todayStart + 24 * 60 * 60 * 1000)

/-- `getDomainMinutesToday` (database.ts). -/
def getDomainMinutesToday (db : DB) (todayStart : ℤ) (domainId : ℕ) : ℤ :=
  ((getTodaysSessions db todayStart).filter (fun s => s.domainId == domainId)).foldl
    (fun total s => total + s.durationMinutes) 0

/-- `getTotalMinutesToday` (database.ts). -/
def getTotalMinutesToday (db : DB) (todayStart : ℤ) : ℤ :=
  (getTodaysSessions db todayStart).foldl (fun total s => total + s.durationMinutes) 0

/-- `getCurrentBalance` (database.ts): sum of all ledger `pointsDelta`. -/
def getCurrentBalance (db : DB) : ℚ :=
  db.ledger.foldl (fun balance e => balance + e.pointsDelta) 0

/-- Outcome of `finishTimer` (TodayTab.tsx). -/
inductive TimerOutcome where
  | tooShort
  | domainNotFound
  | hardCapExceeded
  | awarded (points : ℤ) (softCapApplied : Bool)
deriving DecidableEq

/-- `finishTimer` (TodayTab.tsx), from the point where the end timestamp is
taken: duration in whole minutes (`Math.floor`), minimum-length check, hard
cap check against `getTotalMinutesToday`, soft-cap penalty decision against
`getDomainMinutesToday`, point award with the pre-update multiplier, session
insert, domain lifetime/level/multiplier update, ledger append. -/
def finishTimerAward (db : DB) (todayStart startTime endTime totalPausedTime : ℤ)
    (selectedDomainId : ℕ) (selectedActivityId : Option ℕ) : TimerOutcome × DB :=
  let durationMinutes : ℤ := ⌊((endTime - startTime - totalPausedTime : ℤ) : ℚ) / 1000 / 60⌋
  if durationMinutes < 1 then (.tooShort, db)
  else
    match db.domains.find? (fun d => d.id == selectedDomainId) with
    | none => (.domainNotFound, db)
    | some domain =>
      let totalMinutesToday := getTotalMinutesToday db todayStart
      let domainMinutesToday := getDomainMinutesToday db todayStart selectedDomainId
      if totalMinutesToday + durationMinutes > DAILY_HARD_CAP_MINUTES then
        (.hardCapExceeded, db)
      else
        let softCapMinutes := jsOrDefault domain.dailySoftCapMinutes 360
        let applySoftCapPenalty : Bool := decide (softCapMinutes ≤ (domainMinutesToday : ℚ))
        let points := calculateSessionPoints (durationMinutes : ℚ) domain.baseRate
          domain.multiplier applySoftCapPenalty
        let sessionId := db.nextSessionId
        let session : Session :=
          { id := sessionId, startTime := startTime, endTime := endTime,
            durationMinutes := durationMinutes, domainId := selectedDomainId,
            activityId := selectedActivityId, pointsAwarded := points, notes := none,
            source := .timer, reviewFlag := false }
        let newLifetimeMinutes := domain.lifetimeMinutes + (durationMinutes : ℚ)
        let lm := getLevelAndMultiplier newLifetimeMinutes
        let activityName :=
          selectedActivityId.bind
            (fun aid => (db.activities.find? (fun a => a.id == aid)).map (fun a => a.name))
        let entry : LedgerEntry :=
          { id := db.nextLedgerId, timestamp := endTime, kind := .earn_session,
            pointsDelta := (points : ℚ), referenceId := sessionId,
            description := "Session: " ++ domain.name ++
              (match activityName with
               | some n => " - " ++ n
               | none => "") }
        (.awarded points applySoftCapPenalty,
          { db with
              sessions := db.sessions ++ [session],
              nextSessionId := db.nextSessionId + 1,
              domains := db.domains.map (fun d =>
                if d.id == selectedDomainId then
                  { d with lifetimeMinutes := newLifetimeMinutes,
                           level := lm.1, multiplier := lm.2 }
                else d),
              ledger := db.ledger ++ [entry],
              nextLedgerId := db.nextLedgerId + 1 })

/-- Outcome of `addManualSession` (LogTab.tsx). -/
inductive ManualOutcome where
  | invalidDuration
  | domainNotFound
  | awarded (points : ℤ)
deriving DecidableEq

/-- `addManualSession` (LogTab.tsx): validates the duration, computes points
with the penalty argument left at its `false` default, stores the session
with `source = manual` and `reviewFlag = true`, updates the domain's
lifetime minutes / level / multiplier, and appends an `earn_session` ledger
entry.  There is no hard-cap or soft-cap check on this path. -/
def addManualSession (db : DB) (domainId : ℕ) (activityId : Option ℕ)
    (durationMinutes : ℤ) (notes : Option String) (now : ℤ) : ManualOutcome × DB :=
  if durationMinutes ≤ 0 then (.invalidDuration, db)
  else
    match db.domains.find? (fun d => d.id == domainId) with
    | none => (.domainNotFound, db)
    | some domain =>
      let points := calculateSessionPoints (durationMinutes : ℚ) domain.baseRate
        domain.multiplier false
      let sessionId := db.nextSessionId
      let session : Session :=
        { id := sessionId, startTime := now - durationMinutes * 60 * 1000, endTime := now,
          durationMinutes := durationMinutes, domainId := domainId,
          activityId := activityId, pointsAwarded := points, notes := notes,
          source := .manual, reviewFlag := true }
      let newLifetimeMinutes := domain.lifetimeMinutes + (durationMinutes : ℚ)
      let lm := getLevelAndMultiplier newLifetimeMinutes
      let entry : LedgerEntry :=
        { id := db.nextLedgerId, timestamp := now, kind := .earn_session,
          pointsDelta := (points : ℚ), referenceId := sessionId,
          description := "Manual Session: " ++ domain.name }
      (.awarded points,
        { db with
            sessions := db.sessions ++ [session],
            nextSessionId := db.nextSessionId + 1,
            domains := db.domains.map (fun d =>
              if d.id == domainId then
                { d with lifetimeMinutes := newLifetimeMinutes,
                         level := lm.1, multiplier := lm.2 }
              else d),
            ledger := db.ledger ++ [entry],
            nextLedgerId := db.nextLedgerId + 1 })

/-- Insert into a list kept sorted by descending timestamp (existing
elements with an equal or later timestamp stay in front). -/
def insertByTimestampDesc (r : Redemption) : List Redemption → List Redemption
  | [] => [r]
  | x :: xs =>
      if r.timestamp ≤ x.timestamp then x :: insertByTimestampDesc r xs
      else r :: x :: xs

/-- `db.redemptions.orderBy('timestamp').reverse()` (ShopTab.tsx
`loadData`): the redemption history sorted by descending timestamp. -/
def sortByTimestampDesc (l : List Redemption) : List Redemption :=
  l.foldr insertByTimestampDesc []

/-- `recentRedemptions` as loaded by ShopTab's `loadData`:
`orderBy('timestamp').reverse().limit(10)` — only the ten most recent
redemptions across all items. -/
def recentRedemptions (db : DB) : List Redemption :=
  (sortByTimestampDesc db.redemptions).take 10

/-- Outcome of `handlePurchase` (ShopTab.tsx). -/
inductive PurchaseOutcome where
  | insufficientBalance
  | onCooldown (daysLeft : ℤ)
  | cancelled
  | purchased (redemptionId : ℕ)
  | persistenceFailed
deriving DecidableEq

/-- `Date.now() − r.timestamp < cooldownDays × 24 × 60 × 60 × 1000`: the
redemption is still inside the cooldown window. -/
def inWindow (now : ℤ) (c : ℚ) (r : Redemption) : Prop :=
  ((now - r.timestamp : ℤ) : ℚ) < c * 24 * 60 * 60 * 1000

instance (now : ℤ) (c : ℚ) : DecidablePred (inWindow now c) := fun r => by
  unfold inWindow
  infer_instance

/-- The cooldown probe of `handlePurchase`: when `item.cooldownDays` is
truthy (set and non-zero), find the first entry of `recents` (most recent
first) that is a redemption of this item inside the cooldown window. -/
def cooldownHit (item : ShopItem) (now : ℤ) (recents : List Redemption) : Option Redemption :=
  match item.cooldownDays with
  | some cd =>
      if cd = 0 then none
      else recents.find? (fun r => r.shopItemId == item.id && decide (inWindow now cd r))
  | none => none

/-- `handlePurchase` (ShopTab.tsx): affordability check against the ledger
balance, cooldown check against the ten most recent redemptions, user
confirmation, then `redemptions.add` followed by `ledger.add` of the
`spend_shop` entry with the price snapshot. -/
def handlePurchase (db : DB) (item : ShopItem) (now : ℤ) (confirmed : Bool) :
    PurchaseOutcome × DB :=
  if getCurrentBalance db < item.pricePoints then (.insufficientBalance, db)
  else
    match cooldownHit item now (recentRedemptions db) with
    | some recentPurchase =>
        let cd := item.cooldownDays.getD 0
        let daysLeft : ℤ :=
          ⌈((recentPurchase.timestamp : ℚ) + cd * 24 * 60 * 60 * 1000 - now)
            / (24 * 60 * 60 * 1000)⌉
        (.onCooldown daysLeft, db)
    | none =>
        if !confirmed then (.cancelled, db)
        else
          let redemptionId := db.nextRedemptionId
          let r : Redemption :=
            { id := redemptionId, timestamp := now, shopItemId := item.id,
              pricePoints := item.pricePoints,
              notes := if item.requiresReview then some "Requires review before action"
                       else none }
          let entry : LedgerEntry :=
            { id := db.nextLedgerId, timestamp := now, kind := .spend_shop,
              pointsDelta := -item.pricePoints, referenceId := redemptionId,
              description := "Purchase: " ++ item.name }
          (.purchased redemptionId,
            { db with
                redemptions := db.redemptions ++ [r],
                nextRedemptionId := redemptionId + 1,
                ledger := db.ledger ++ [entry],
                nextLedgerId := db.nextLedgerId + 1 })

/-- `handlePurchase` with an injected persistence failure.  The success
branch of the source performs two separate awaited writes —
`db.redemptions.add(...)` then `db.ledger.add(...)` — with no enclosing
transaction; a thrown write is caught and surfaced as a failure alert.
`failAfter = some k` makes the `(k+1)`-th write throw, leaving the earlier
writes committed; `failAfter = none` (or a `k` past the last write) is the
fault-free run. -/
def handlePurchaseFallible (db : DB) (item : ShopItem) (now : ℤ) (confirmed : Bool)
    (failAfter : Option ℕ) : PurchaseOutcome × DB :=
  if getCurrentBalance db < item.pricePoints then (.insufficientBalance, db)
  else
    match cooldownHit item now (recentRedemptions db) with
    | some recentPurchase =>
        let cd := item.cooldownDays.getD 0
        let daysLeft : ℤ :=
          ⌈((recentPurchase.timestamp : ℚ) + cd * 24 * 60 * 60 * 1000 - now)
            / (24 * 60 * 60 * 1000)⌉
        (.onCooldown daysLeft, db)
    | none =>
        if !confirmed then (.cancelled, db)
        else
          let redemptionId := db.nextRedemptionId
          let r : Redemption :=
            { id := redemptionId, timestamp := now, shopItemId := item.id,
              pricePoints := item.pricePoints,
              notes := if item.requiresReview then some "Requires review before action"
                       else none }
          let entry : LedgerEntry :=
            { id := db.nextLedgerId, timestamp := now, kind := .spend_shop,
              pointsDelta := -item.pricePoints, referenceId := redemptionId,
              description := "Purchase: " ++ item.name }
          match failAfter with
          | some 0 => (.persistenceFailed, db)
          | some 1 =>
              (.persistenceFailed,
                { db with
                    redemptions := db.redemptions ++ [r],
                    nextRedemptionId := redemptionId + 1 })
          | _ =>
              (.purchased redemptionId,
                { db with
                    redemptions := db.redemptions ++ [r],
                    nextRedemptionId := redemptionId + 1,
                    ledger := db.ledger ++ [entry],
                    nextLedgerId := db.nextLedgerId + 1 })

/-- `addBonus` (SettingsTab.tsx): positive-points validation, bonus record
insert, `earn_bonus` ledger append. -/
def addBonus (db : DB) (title : String) (points : ℤ) (notes : Option String)
    (now : ℤ) : Bool × DB :=
  if points ≤ 0 then (false, db)
  else
    let bonusId := db.nextBonusId
    let b : Bonus :=
      { id := bonusId, timestamp := now, title := title, points := points, notes := notes }
    let entry : LedgerEntry :=
      { id := db.nextLedgerId, timestamp := now, kind := .earn_bonus,
        pointsDelta := (points : ℚ), referenceId := bonusId,
        description := "Bonus: " ++ title }
    (true,
      { db with
          bonuses := db.bonuses ++ [b],
          nextBonusId := db.nextBonusId + 1,
          ledger := db.ledger ++ [entry],
          nextLedgerId := db.nextLedgerId + 1 })

/-- `toggleDomain` (SettingsTab.tsx): `db.domains.update(id, { isActive })`. -/
def toggleDomain (db : DB) (domainId : ℕ) (isActive : Bool) : DB :=
  { db with
      domains := db.domains.map (fun d =>
        if d.id == domainId then { d with isActive := isActive } else d) }

/-- A domain entry of a v1 personal config (types.ts `PersonalConfigV1`). -/
structure ConfigDomainV1 where
  name : String
  baseRate : ℚ
  dailySoftCapMinutes : Option ℚ
  isActive : Bool
deriving DecidableEq

/-- An activity group of a v1 personal config. -/
structure ConfigActivityGroupV1 where
  domainName : String
  activities : List String
deriving DecidableEq

/-- A shop item of a personal config: `Omit<ShopItem, 'id'>`. -/
structure ConfigShopItem where
  category : String
  name : String
  pricePoints : ℚ
  description : Option String
  cooldownDays : Option ℚ
  requiresReview : Bool
  requirements : Option (List String)
  realCostEstimate : Option String
  isActive : Bool
  achievedCount : Option ℕ
deriving DecidableEq

/-- `PersonalConfigV1` (types.ts); `bonusMilestones` is carried but never
read by the importer. -/
structure PersonalConfigV1 where
  domains : List ConfigDomainV1
  activities : List ConfigActivityGroupV1
  shopItems : List ConfigShopItem
  bonusMilestones : List (String × ℚ)
deriving DecidableEq

/-- A domain entry of a v2 personal config. -/
structure ConfigDomainV2 where
  id : String
  name : String
  baseRate : ℚ
  dailySoftCapMinutes : Option ℚ
  dailyHardCapMinutes : Option ℚ
  isActive : Bool
  colorHint : Option String
deriving DecidableEq

/-- An `activityLibrary` entry of a v2 personal config. -/
structure ConfigActivityV2 where
  id : String
  domainId : String
  name : String
  tags : Option (List String)
  rateOverride : Option ℚ
  deepWorkEligible : Option Bool
  minBlockMinutes : Option ℚ
  notesPrompt : Option String
deriving DecidableEq

/-- A shop item of a v2 personal config. -/
structure ConfigShopItemV2 where
  category : String
  name : String
  pricePoints : ℚ
  cooldownDays : Option ℚ
  requiresReview : Bool
  requirements : Option (List String)
  isActive : Bool
deriving DecidableEq

/-- `PersonalConfigV2` (types.ts), restricted to the sections the importer
reads. -/
structure PersonalConfigV2 where
  domains : List ConfigDomainV2
  activityLibrary : List ConfigActivityV2
  shopItems : List ConfigShopItemV2
deriving DecidableEq

/-- `PersonalConfig = PersonalConfigV1 | PersonalConfigV2`, discriminated by
the `version` field. -/
inductive PersonalConfig where
  | v1 (c : PersonalConfigV1)
  | v2 (c : PersonalConfigV2)
deriving DecidableEq

/-- `domainIdMap.set(key, id)`: later entries shadow earlier ones. -/
def mapSet (m : List (String × ℕ)) (key : String) (v : ℕ) : List (String × ℕ) :=
  (key, v) :: m

/-- `domainIdMap.get(key)`: the most recently set binding. -/
def mapGet (m : List (String × ℕ)) (key : String) : Option ℕ :=
  (m.find? (fun p => p.1 == key)).map (fun p => p.2)

/-- The domain loop of `importV1Config`: insert each config domain with
`lifetimeMinutes = 0`, `level = 1`, `multiplier = 1.0` and record
name → fresh id. -/
def addDomainsV1 (db : DB) (ds : List ConfigDomainV1) (m : List (String × ℕ)) :
    DB × List (String × ℕ) :=
  match ds with
  | [] => (db, m)
  | d :: rest =>
      let newId := db.nextDomainId
      let dom : Domain :=
        { id := newId, configId := none, name := d.name, baseRate := d.baseRate,
          lifetimeMinutes := 0, level := 1, multiplier := 1,
          dailySoftCapMinutes := d.dailySoftCapMinutes, dailyHardCapMinutes := none,
          colorHint := none, isActive := d.isActive }
      addDomainsV1
        { db with domains := db.domains ++ [dom], nextDomainId := newId + 1 }
        rest (mapSet m d.name newId)

/-- The inner activity loop of `importV1Config`: insert one activity per
name, owned by `domainId`. -/
def addActivityNames (db : DB) (domainId : ℕ) (names : List String) : DB :=
  match names with
  | [] => db
  | n :: rest =>
      let act : Activity :=
        { id := db.nextActivityId, configId := none, domainId := domainId,
          domainConfigId := none, name := n, tags := none, rateOverride := none,
          deepWorkEligible := none, minBlockMinutes := none, notesPrompt := none,
          isActive := true }
      addActivityNames
        { db with activities := db.activities ++ [act],
                  nextActivityId := db.nextActivityId + 1 }
        domainId rest

/-- The activity-group loop of `importV1Config`: groups whose `domainName`
does not resolve (or resolves to the falsy id 0) are silently skipped. -/
def addActivityGroupsV1 (db : DB) (gs : List ConfigActivityGroupV1)
    (m : List (String × ℕ)) : DB :=
  match gs with
  | [] => db
  | g :: rest =>
      match mapGet m g.domainName with
      | some domainId =>
          if domainId = 0 then addActivityGroupsV1 db rest m
          else addActivityGroupsV1 (addActivityNames db domainId g.activities) rest m
      | none => addActivityGroupsV1 db rest m

/-- The shop-item loop of `importV1Config`: items are inserted verbatim. -/
def addShopItemsV1 (db : DB) (items : List ConfigShopItem) : DB :=
  match items with
  | [] => db
  | it :: rest =>
      let s : ShopItem :=
        { id := db.nextShopItemId, category := it.category, name := it.name,
          pricePoints := it.pricePoints, description := it.description,
          cooldownDays := it.cooldownDays, requiresReview := it.requiresReview,
          requirements := it.requirements, realCostEstimate := it.realCostEstimate,
          isActive := it.isActive, achievedCount := it.achievedCount }
      addShopItemsV1
        { db with shopItems := db.shopItems ++ [s],
                  nextShopItemId := db.nextShopItemId + 1 }
        rest

/-- The domain loop of `importV2Config`: like v1 but keyed by the config's
opaque domain id, kept as `configId`. -/
def addDomainsV2 (db : DB) (ds : List ConfigDomainV2) (m : List (String × ℕ)) :
    DB × List (String × ℕ) :=
  match ds with
  | [] => (db, m)
  | d :: rest =>
      let newId := db.nextDomainId
      let dom : Domain :=
        { id := newId, configId := some d.id, name := d.name, baseRate := d.baseRate,
          lifetimeMinutes := 0, level := 1, multiplier := 1,
          dailySoftCapMinutes := d.dailySoftCapMinutes,
          dailyHardCapMinutes := d.dailyHardCapMinutes,
          colorHint := d.colorHint, isActive := d.isActive }
      addDomainsV2
        { db with domains := db.domains ++ [dom], nextDomainId := newId + 1 }
        rest (mapSet m d.id newId)

/-- The `activityLibrary` loop of `importV2Config`: unresolvable (or falsy)
domain references are silently skipped. -/
def addActivitiesV2 (db : DB) (as_ : List ConfigActivityV2)
    (m : List (String × ℕ)) : DB :=
  match as_ with
  | [] => db
  | a :: rest =>
      match mapGet m a.domainId with
      | some domainId =>
          if domainId = 0 then addActivitiesV2 db rest m
          else
            let act : Activity :=
              { id := db.nextActivityId, configId := some a.id, domainId := domainId,
                domainConfigId := some a.domainId, name := a.name, tags := a.tags,
                rateOverride := a.rateOverride, deepWorkEligible := a.deepWorkEligible,
                minBlockMinutes := a.minBlockMinutes, notesPrompt := a.notesPrompt,
                isActive := true }
            addActivitiesV2
              { db with activities := db.activities ++ [act],
                        nextActivityId := db.nextActivityId + 1 }
              rest m
      | none => addActivitiesV2 db rest m

/-- The shop-item loop of `importV2Config`. -/
def addShopItemsV2 (db : DB) (items : List ConfigShopItemV2) : DB :=
  match items with
  | [] => db
  | it :: rest =>
      let s : ShopItem :=
        { id := db.nextShopItemId, category := it.category, name := it.name,
          pricePoints := it.pricePoints, description := none,
          cooldownDays := it.cooldownDays, requiresReview := it.requiresReview,
          requirements := it.requirements, realCostEstimate := none,
          isActive := it.isActive, achievedCount := none }
      addShopItemsV2
        { db with shopItems := db.shopItems ++ [s],
                  nextShopItemId := db.nextShopItemId + 1 }
        rest

/-- `importV1Config` (database.ts): domains, then activities via the
name → id map, then shop items. -/
def importV1Config (db : DB) (c : PersonalConfigV1) : DB :=
  let dm := addDomainsV1 db c.domains []
  let db1 := addActivityGroupsV1 dm.1 c.activities dm.2
  addShopItemsV1 db1 c.shopItems

/-- `importV2Config` (database.ts). -/
def importV2Config (db : DB) (c : PersonalConfigV2) : DB :=
  let dm := addDomainsV2 db c.domains []
  let db1 := addActivitiesV2 dm.1 c.activityLibrary dm.2
  addShopItemsV2 db1 c.shopItems

/-- `importPersonalConfig` (database.ts): clear the Domain / Activity /
ShopItem catalogs (sessions, bonuses, redemptions and the ledger are not
cleared; Dexie's auto-increment counters survive a `clear()`), then run the
version-appropriate importer.  Returns the `success` flag. -/
def importPersonalConfig (db : DB) (config : PersonalConfig) : Bool × DB :=
  let cleared := { db with domains := ([] : List Domain),
                           activities := ([] : List Activity),
                           shopItems := ([] : List ShopItem) }
  match config with
  | .v2 c => (true, importV2Config cleared c)
  | .v1 c => (true, importV1Config cleared c)

/-- `DEFAULT_DOMAINS` (types.ts): placeholder domains. -/
def DEFAULT_DOMAINS : List ConfigDomainV1 :=
  [ { name := "Category 1", baseRate := 10, dailySoftCapMinutes := some 360, isActive := true },
    { name := "Category 2", baseRate := 8, dailySoftCapMinutes := some 360, isActive := true },
    { name := "Category 3", baseRate := 6, dailySoftCapMinutes := some 240, isActive := true } ]

/-- `DEFAULT_SHOP_ITEMS` (types.ts): placeholder shop items. -/
def DEFAULT_SHOP_ITEMS : List ConfigShopItem :=
  [ { category := "Small Rewards", name := "Small Treat", pricePoints := 5000,
      description := none, cooldownDays := none, requiresReview := false,
      requirements := none, realCostEstimate := none, isActive := true,
      achievedCount := none },
    { category := "Small Rewards", name := "Medium Treat", pricePoints := 15000,
      description := none, cooldownDays := none, requiresReview := false,
      requirements := none, realCostEstimate := none, isActive := true,
      achievedCount := none },
    { category := "Big Rewards", name := "Big Purchase", pricePoints := 50000,
      description := none, cooldownDays := none, requiresReview := false,
      requirements := none, realCostEstimate := none, isActive := true,
      achievedCount := none },
    { category := "Big Rewards", name := "Major Purchase", pricePoints := 150000,
      description := none, cooldownDays := none, requiresReview := true,
      requirements := none, realCostEstimate := none, isActive := true,
      achievedCount := none } ]

/-- The fresh database before `populate` runs: empty tables, all Dexie
`++id` counters at 1. -/
def emptyDB : DB :=
  { domains := [], activities := [], sessions := [], bonuses := [], shopItems := [],
    redemptions := [], ledger := [], nextDomainId := 1, nextActivityId := 1,
    nextSessionId := 1, nextBonusId := 1, nextShopItemId := 1, nextRedemptionId := 1,
    nextLedgerId := 1 }

/-- The activity loop of `populateDefaults`: three placeholder tasks per
existing domain. -/
def populateActivities (db : DB) (doms : List Domain) : DB :=
  match doms with
  | [] => db
  | d :: rest =>
      populateActivities (addActivityNames db d.id ["Task 1", "Task 2", "Task 3"]) rest

/-- `populateDefaults` (database.ts): placeholder domains (with
`lifetimeMinutes = 0`, `level = 1`, `multiplier = 1.0`), placeholder shop
items, then three placeholder activities for each created domain. -/
def populateDefaults (db : DB) : DB :=
  let dm := addDomainsV1 db DEFAULT_DOMAINS []
  let db1 := addShopItemsV1 dm.1 DEFAULT_SHOP_ITEMS
  populateActivities db1 db1.domains

/-- The state of the store after first run: `populateDefaults` applied to a
fresh database. -/
def initDB : DB := populateDefaults emptyDB

/-- `db'` differs from `db` at most in the Domain / Activity / ShopItem
catalogs and their id counters; every history table (sessions, bonuses,
redemptions, ledger) and history id counter is untouched. -/
def CatalogOnly (db db' : DB) : Prop :=
  db'.sessions = db.sessions ∧ db'.bonuses = db.bonuses ∧
  db'.redemptions = db.redemptions ∧ db'.ledger = db.ledger ∧
  db'.nextSessionId = db.nextSessionId ∧ db'.nextBonusId = db.nextBonusId ∧
  db'.nextRedemptionId = db.nextRedemptionId ∧ db'.nextLedgerId = db.nextLedgerId

/-- The reference level algorithm, as worded by the specification (§4.1):
the greatest index `i` with `hours ≥ T[i]` gives `(i+1, M[i])`, and inputs
below `T[0]` give `(1, M[0])`. -/
def refLevelMult (lifetimeMinutes : ℚ) : ℕ × ℚ :=
  let hours := lifetimeMinutes / 60
  match ((List.range LEVEL_THRESHOLDS.length).filter
      (fun i => LEVEL_THRESHOLDS.getD i 0 ≤ hours)).getLast? with
  | some i => (i + 1, MULTIPLIERS.getD i 1)
  | none => (1, MULTIPLIERS.getD 0 1)

/-- The penalty flag that `finishTimer` passes to `calculateSessionPoints`. -/
def timerPenalty (db : DB) (todayStart : ℤ) (domId : ℕ) (domain : Domain) : Bool :=
  decide (jsOrDefault domain.dailySoftCapMinutes 360 ≤
    ((getDomainMinutesToday db todayStart domId : ℤ) : ℚ))

/-- Example domain used by concrete witnesses: 10 points/hour, soft cap
360 minutes, no lifetime progress yet. -/
def domainW : Domain :=
  { id := 1, configId := none, name := "Business", baseRate := 10, lifetimeMinutes := 0,
    level := 1, multiplier := 1, dailySoftCapMinutes := some 360,
    dailyHardCapMinutes := none, colorHint := none, isActive := true }

/-- Example database holding only `domainW`. -/
def dbW6 : DB := { emptyDB with domains := [domainW], nextDomainId := 2 }

/-- Session giving 700 minutes of logged time today. -/
def sessC1 : Session :=
  { id := 1, startTime := 0, endTime := 42000000, durationMinutes := 700, domainId := 1,
    activityId := none, pointsAwarded := 117, notes := none, source := .timer,
    reviewFlag := false }

/-- Database with `domainW` and 700 minutes already logged today. -/
def dbC1 : DB :=
  { emptyDB with
      domains := [domainW], nextDomainId := 2, sessions := [sessC1],
      nextSessionId := 2 }

/-- Database with only `domainW`, nothing logged. -/
def dbC2 : DB := { emptyDB with domains := [domainW], nextDomainId := 2 }

/-- Session giving 360 minutes in domain 1 today (at the soft cap). -/
def sessC5 : Session :=
  { id := 1, startTime := 0, endTime := 21600000, durationMinutes := 360, domainId := 1,
    activityId := none, pointsAwarded := 60, notes := none, source := .timer,
    reviewFlag := false }

/-- Database where domain 1 has already hit its 360-minute soft cap today. -/
def dbC5 : DB :=
  { emptyDB with
      domains := [domainW], nextDomainId := 2, sessions := [sessC5],
      nextSessionId := 2 }

/-- Shop item with a 7-day cooldown. -/
def itemC8 : ShopItem :=
  { id := 1, category := "Treats", name := "Coffee", pricePoints := 100,
    description := none, cooldownDays := some 7, requiresReview := false,
    requirements := none, realCostEstimate := none, isActive := true,
    achievedCount := none }

/-- The one (most recent) redemption of `itemC8`, at time 0. -/
def redA : Redemption :=
  { id := 1, timestamp := 0, shopItemId := 1, pricePoints := 100, notes := none }

/-- Ten later redemptions of a different item (id 2), at times 1..10. -/
def redsB : List Redemption :=
  [ { id := 2, timestamp := 1, shopItemId := 2, pricePoints := 50, notes := none },
    { id := 3, timestamp := 2, shopItemId := 2, pricePoints := 50, notes := none },
    { id := 4, timestamp := 3, shopItemId := 2, pricePoints := 50, notes := none },
    { id := 5, timestamp := 4, shopItemId := 2, pricePoints := 50, notes := none },
    { id := 6, timestamp := 5, shopItemId := 2, pricePoints := 50, notes := none },
    { id := 7, timestamp := 6, shopItemId := 2, pricePoints := 50, notes := none },
    { id := 8, timestamp := 7, shopItemId := 2, pricePoints := 50, notes := none },
    { id := 9, timestamp := 8, shopItemId := 2, pricePoints := 50, notes := none },
    { id := 10, timestamp := 9, shopItemId := 2, pricePoints := 50, notes := none },
    { id := 11, timestamp := 10, shopItemId := 2, pricePoints := 50, notes := none } ]

/-- A seed `earn_bonus` entry providing a 1000-point balance. -/
def entrySeed : LedgerEntry :=
  { id := 1, timestamp := 0, kind := .earn_bonus, pointsDelta := 1000, referenceId := 1,
    description := "Bonus: seed" }

/-- Database whose redemption history holds `redA` followed by the ten
`redsB` redemptions: `redA` is the eleventh most recent redemption. -/
def dbC8 : DB :=
  { emptyDB with
      shopItems := [itemC8], nextShopItemId := 2, redemptions := redA :: redsB,
      nextRedemptionId := 12, ledger := [entrySeed], nextLedgerId := 2 }

/-- Database whose only redemption is `redA`: the immediate-repurchase
scenario. -/
def dbC8b : DB :=
  { emptyDB with
      shopItems := [itemC8], nextShopItemId := 2, redemptions := [redA],
      nextRedemptionId := 2, ledger := [entrySeed], nextLedgerId := 2 }

/-- Database with `itemC8` in the catalog and a 1000-point balance. -/
def dbC3 : DB :=
  { emptyDB with
      shopItems := [itemC8], nextShopItemId := 2, ledger := [entrySeed],
      nextLedgerId := 2 }

/-- The redemption the interrupted purchase leaves behind. -/
def redC3 : Redemption :=
  { id := 1, timestamp := 5, shopItemId := 1, pricePoints := 100, notes := none }

/-- The pairing predicate of the ledger invariant: `e` is the `spend_shop`
entry of redemption `r`. -/
def spendMatch (r : Redemption) (e : LedgerEntry) : Bool :=
  decide (e.kind = EntryKind.spend_shop) && decide (e.referenceId = r.id)

/-- One engine operation, as exposed by the UI: a timer award, a manual
award, a shop purchase, a milestone bonus, a config import, or a domain
activation toggle. -/
inductive Step : DB → DB → Prop where
  | timer (db : DB) (todayStart st et tp : ℤ) (domId : ℕ) (actId : Option ℕ) :
      Step db (finishTimerAward db todayStart st et tp domId actId).2
  | manual (db : DB) (domId : ℕ) (actId : Option ℕ) (dur : ℤ) (notes : Option String)
      (now : ℤ) : Step db (addManualSession db domId actId dur notes now).2
  | purchase (db : DB) (item : ShopItem) (now : ℤ) (confirmed : Bool) :
      Step db (handlePurchase db item now confirmed).2
  | bonus (db : DB) (title : String) (points : ℤ) (notes : Option String) (now : ℤ) :
      Step db (addBonus db title points notes now).2
  | importCfg (db : DB) (config : PersonalConfig) :
      Step db (importPersonalConfig db config).2
  | toggle (db : DB) (domId : ℕ) (isActive : Bool) :
      Step db (toggleDomain db domId isActive)

/-- States reachable from the freshly populated store by engine
operations. -/
def Reachable (db : DB) : Prop := Relation.ReflTransGen Step initDB db

/-- Inductive invariant: redemption ids are below the redemption counter,
`spend_shop` references are below the redemption counter, and every
redemption has exactly one matching `spend_shop` entry carrying the
negated price snapshot. -/
def J (db : DB) : Prop :=
  (∀ r ∈ db.redemptions, r.id < db.nextRedemptionId) ∧
  (∀ e ∈ db.ledger, e.kind = EntryKind.spend_shop → e.referenceId < db.nextRedemptionId) ∧
  (∀ r ∈ db.redemptions,
    (db.ledger.filter (spendMatch r)).length = 1 ∧
    ∀ e ∈ db.ledger, spendMatch r e = true → e.pointsDelta = -r.pricePoints)

/-- The redemption a successful purchase records. -/
def purchasedRedemption (db : DB) (item : ShopItem) (now : ℤ) : Redemption :=
  { id := db.nextRedemptionId, timestamp := now, shopItemId := item.id,
    pricePoints := item.pricePoints,
    notes := if item.requiresReview then some "Requires review before action" else none }

/-- The `spend_shop` entry a successful purchase appends. -/
def purchasedEntry (db : DB) (item : ShopItem) (now : ℤ) : LedgerEntry :=
  { id := db.nextLedgerId, timestamp := now, kind := .spend_shop,
    pointsDelta := -item.pricePoints, referenceId := db.nextRedemptionId,
    description := "Purchase: " ++ item.name }

/-- A free shop item, purchasable from the zero-balance initial store. -/
def itemW9 : ShopItem :=
  { id := 1, category := "Free", name := "Freebie", pricePoints := 0,
    description := none, cooldownDays := none, requiresReview := false,
    requirements := none, realCostEstimate := none, isActive := true,
    achievedCount := none }

theorem catalogOnly_refl (db : DB) : CatalogOnly db db := by
  simp [CatalogOnly]

theorem catalogOnly_trans {db1 db2 db3 : DB} (h1 : CatalogOnly db1 db2)
    (h2 : CatalogOnly db2 db3) : CatalogOnly db1 db3 := by
  obtain ⟨a1, b1, c1, d1, e1, f1, g1, i1⟩ := h1
  obtain ⟨a2, b2, c2, d2, e2, f2, g2, i2⟩ := h2
  exact ⟨a2.trans a1, b2.trans b1, c2.trans c1, d2.trans d1, e2.trans e1,
    f2.trans f1, g2.trans g1, i2.trans i1⟩

theorem catalogOnly_addDomainsV1 (ds : List ConfigDomainV1) :
    ∀ db m, CatalogOnly db (addDomainsV1 db ds m).1 := by
  induction ds with
  | nil => intro db m; simp [addDomainsV1, catalogOnly_refl]
  | cons d rest ih =>
      intro db m
      exact catalogOnly_trans (by simp [CatalogOnly]) (ih _ _)

theorem catalogOnly_addActivityNames (names : List String) :
    ∀ db domainId, CatalogOnly db (addActivityNames db domainId names) := by
  induction names with
  | nil => intro db domainId; simp [addActivityNames, catalogOnly_refl]
  | cons n rest ih =>
      intro db domainId
      exact catalogOnly_trans (by simp [CatalogOnly]) (ih _ _)

theorem catalogOnly_addActivityGroupsV1 (gs : List ConfigActivityGroupV1) :
    ∀ db m, CatalogOnly db (addActivityGroupsV1 db gs m) := by
  induction gs with
  | nil => intro db m; simp [addActivityGroupsV1, catalogOnly_refl]
  | cons g rest ih =>
      intro db m
      unfold addActivityGroupsV1
      match hm : mapGet m g.domainName with
      | some domainId =>
          by_cases h0 : domainId = 0
          · simp only [h0, if_pos rfl]
            exact ih _ _
          · simp only [if_neg h0]
            exact catalogOnly_trans (catalogOnly_addActivityNames _ _ _) (ih _ _)
      | none => exact ih _ _

theorem catalogOnly_addShopItemsV1 (items : List ConfigShopItem) :
    ∀ db, CatalogOnly db (addShopItemsV1 db items) := by
  induction items with
  | nil => intro db; simp [addShopItemsV1, catalogOnly_refl]
  | cons it rest ih =>
      intro db
      exact catalogOnly_trans (by simp [CatalogOnly]) (ih _)

theorem catalogOnly_addDomainsV2 (ds : List ConfigDomainV2) :
    ∀ db m, CatalogOnly db (addDomainsV2 db ds m).1 := by
  induction ds with
  | nil => intro db m; simp [addDomainsV2, catalogOnly_refl]
  | cons d rest ih =>
      intro db m
      exact catalogOnly_trans (by simp [CatalogOnly]) (ih _ _)

theorem catalogOnly_addActivitiesV2 (as_ : List ConfigActivityV2) :
    ∀ db m, CatalogOnly db (addActivitiesV2 db as_ m) := by
  induction as_ with
  | nil => intro db m; simp [addActivitiesV2, catalogOnly_refl]
  | cons a rest ih =>
      intro db m
      unfold addActivitiesV2
      match hm : mapGet m a.domainId with
      | some domainId =>
          by_cases h0 : domainId = 0
          · simp only [h0, if_pos rfl]
            exact ih _ _
          · simp only [if_neg h0]
            exact catalogOnly_trans (by simp [CatalogOnly]) (ih _ _)
      | none => exact ih _ _

theorem catalogOnly_addShopItemsV2 (items : List ConfigShopItemV2) :
    ∀ db, CatalogOnly db (addShopItemsV2 db items) := by
  induction items with
  | nil => intro db; simp [addShopItemsV2, catalogOnly_refl]
  | cons it rest ih =>
      intro db
      exact catalogOnly_trans (by simp [CatalogOnly]) (ih _)

theorem catalogOnly_import (db : DB) (config : PersonalConfig) :
    CatalogOnly db (importPersonalConfig db config).2 := by
  have hc : CatalogOnly db
      { db with domains := ([] : List Domain), activities := ([] : List Activity),
                shopItems := ([] : List ShopItem) } := by
    simp [CatalogOnly]
  cases config with
  | v1 c =>
      simp only [importPersonalConfig, importV1Config]
      exact catalogOnly_trans hc
        (catalogOnly_trans (catalogOnly_addDomainsV1 _ _ _)
          (catalogOnly_trans (catalogOnly_addActivityGroupsV1 _ _ _)
            (catalogOnly_addShopItemsV1 _ _)))
  | v2 c =>
      simp only [importPersonalConfig, importV2Config]
      exact catalogOnly_trans hc
        (catalogOnly_trans (catalogOnly_addDomainsV2 _ _ _)
          (catalogOnly_trans (catalogOnly_addActivitiesV2 _ _ _)
            (catalogOnly_addShopItemsV2 _ _)))

theorem catalogOnly_populate (db : DB) : CatalogOnly db (populateDefaults db) := by
  have h1 := catalogOnly_addDomainsV1 DEFAULT_DOMAINS db []
  have h2 := catalogOnly_addShopItemsV1 DEFAULT_SHOP_ITEMS (addDomainsV1 db DEFAULT_DOMAINS []).1
  have h3 : ∀ doms db0, CatalogOnly db0 (populateActivities db0 doms) := by
    intro doms
    induction doms with
    | nil => intro db0; simp [populateActivities, catalogOnly_refl]
    | cons d rest ih =>
        intro db0
        exact catalogOnly_trans (catalogOnly_addActivityNames _ _ _) (ih _)
  exact catalogOnly_trans h1 (catalogOnly_trans h2 (h3 _ _))

theorem initDB_history :
    initDB.sessions = [] ∧ initDB.bonuses = [] ∧ initDB.redemptions = [] ∧
    initDB.ledger = [] ∧ initDB.nextRedemptionId = 1 ∧ initDB.nextLedgerId = 1 := by
  have h := catalogOnly_populate emptyDB
  obtain ⟨a, b, c, d, e, f, g, i⟩ := h
  exact ⟨a, b, c, d, g, i⟩

theorem range10 : List.range 10 = [0, 1, 2, 3, 4, 5, 6, 7, 8, 9] := by rfl

theorem levelBandNeg (m : ℚ) (h : m < 0) :
    getLevelAndMultiplier m = (1, 1) ∧ refLevelMult m = (1, 1) := by
  have b0 : ¬ (0 : ℚ) ≤ m / 60 := by intro hc; linarith
  have b1 : ¬ (25 : ℚ) ≤ m / 60 := by intro hc; linarith
  have b2 : ¬ (75 : ℚ) ≤ m / 60 := by intro hc; linarith
  have b3 : ¬ (150 : ℚ) ≤ m / 60 := by intro hc; linarith
  have b4 : ¬ (300 : ℚ) ≤ m / 60 := by intro hc; linarith
  have b5 : ¬ (600 : ℚ) ≤ m / 60 := by intro hc; linarith
  have b6 : ¬ (1000 : ℚ) ≤ m / 60 := by intro hc; linarith
  have b7 : ¬ (1600 : ℚ) ≤ m / 60 := by intro hc; linarith
  have b8 : ¬ (2500 : ℚ) ≤ m / 60 := by intro hc; linarith
  have b9 : ¬ (4000 : ℚ) ≤ m / 60 := by intro hc; linarith
  constructor
  · simp [getLevelAndMultiplier, LEVEL_THRESHOLDS, MULTIPLIERS, levelLoop, List.zip, b0]
  · simp [refLevelMult, LEVEL_THRESHOLDS, MULTIPLIERS, range10, b0, b1, b2, b3, b4, b5,
      b6, b7, b8, b9]
    try norm_num

theorem levelBand1 (m : ℚ) (h1 : 0 ≤ m) (h2 : m < 1500) :
    getLevelAndMultiplier m = (1, 1) ∧ refLevelMult m = (1, 1) := by
  have a0 : (0 : ℚ) ≤ m / 60 := by linarith
  have b1 : ¬ (25 : ℚ) ≤ m / 60 := by intro hc; linarith
  have b2 : ¬ (75 : ℚ) ≤ m / 60 := by intro hc; linarith
  have b3 : ¬ (150 : ℚ) ≤ m / 60 := by intro hc; linarith
  have b4 : ¬ (300 : ℚ) ≤ m / 60 := by intro hc; linarith
  have b5 : ¬ (600 : ℚ) ≤ m / 60 := by intro hc; linarith
  have b6 : ¬ (1000 : ℚ) ≤ m / 60 := by intro hc; linarith
  have b7 : ¬ (1600 : ℚ) ≤ m / 60 := by intro hc; linarith
  have b8 : ¬ (2500 : ℚ) ≤ m / 60 := by intro hc; linarith
  have b9 : ¬ (4000 : ℚ) ≤ m / 60 := by intro hc; linarith
  constructor
  · simp [getLevelAndMultiplier, LEVEL_THRESHOLDS, MULTIPLIERS, levelLoop, List.zip,
      a0, b1]
    try norm_num
  · simp [refLevelMult, LEVEL_THRESHOLDS, MULTIPLIERS, range10,
      a0, b1, b2, b3, b4, b5, b6, b7, b8, b9]
    try norm_num

theorem levelBand2 (m : ℚ) (h1 : 1500 ≤ m) (h2 : m < 4500) :
    getLevelAndMultiplier m = (2, 1.1) ∧ refLevelMult m = (2, 1.1) := by
  have a0 : (0 : ℚ) ≤ m / 60 := by linarith
  have a1 : (25 : ℚ) ≤ m / 60 := by linarith
  have b2 : ¬ (75 : ℚ) ≤ m / 60 := by intro hc; linarith
  have b3 : ¬ (150 : ℚ) ≤ m / 60 := by intro hc; linarith
  have b4 : ¬ (300 : ℚ) ≤ m / 60 := by intro hc; linarith
  have b5 : ¬ (600 : ℚ) ≤ m / 60 := by intro hc; linarith
  have b6 : ¬ (1000 : ℚ) ≤ m / 60 := by intro hc; linarith
  have b7 : ¬ (1600 : ℚ) ≤ m / 60 := by intro hc; linarith
  have b8 : ¬ (2500 : ℚ) ≤ m / 60 := by intro hc; linarith
  have b9 : ¬ (4000 : ℚ) ≤ m / 60 := by intro hc; linarith
  constructor
  · simp [getLevelAndMultiplier, LEVEL_THRESHOLDS, MULTIPLIERS, levelLoop, List.zip,
      a0, a1, b2]
  · simp [refLevelMult, LEVEL_THRESHOLDS, MULTIPLIERS, range10,
      a0, a1, b2, b3, b4, b5, b6, b7, b8, b9]

theorem levelBand3 (m : ℚ) (h1 : 4500 ≤ m) (h2 : m < 9000) :
    getLevelAndMultiplier m = (3, 1.25) ∧ refLevelMult m = (3, 1.25) := by
  have a0 : (0 : ℚ) ≤ m / 60 := by linarith
  have a1 : (25 : ℚ) ≤ m / 60 := by linarith
  have a2 : (75 : ℚ) ≤ m / 60 := by linarith
  have b3 : ¬ (150 : ℚ) ≤ m / 60 := by intro hc; linarith
  have b4 : ¬ (300 : ℚ) ≤ m / 60 := by intro hc; linarith
  have b5 : ¬ (600 : ℚ) ≤ m / 60 := by intro hc; linarith
  have b6 : ¬ (1000 : ℚ) ≤ m / 60 := by intro hc; linarith
  have b7 : ¬ (1600 : ℚ) ≤ m / 60 := by intro hc; linarith
  have b8 : ¬ (2500 : ℚ) ≤ m / 60 := by intro hc; linarith
  have b9 : ¬ (4000 : ℚ) ≤ m / 60 := by intro hc; linarith
  constructor
  · simp [getLevelAndMultiplier, LEVEL_THRESHOLDS, MULTIPLIERS, levelLoop, List.zip,
      a0, a1, a2, b3]
  · simp [refLevelMult, LEVEL_THRESHOLDS, MULTIPLIERS, range10,
      a0, a1, a2, b3, b4, b5, b6, b7, b8, b9]

theorem levelBand4 (m : ℚ) (h1 : 9000 ≤ m) (h2 : m < 18000) :
    getLevelAndMultiplier m = (4, 1.4) ∧ refLevelMult m = (4, 1.4) := by
  have a0 : (0 : ℚ) ≤ m / 60 := by linarith
  have a1 : (25 : ℚ) ≤ m / 60 := by linarith
  have a2 : (75 : ℚ) ≤ m / 60 := by linarith
  have a3 : (150 : ℚ) ≤ m / 60 := by linarith
  have b4 : ¬ (300 : ℚ) ≤ m / 60 := by intro hc; linarith
  have b5 : ¬ (600 : ℚ) ≤ m / 60 := by intro hc; linarith
  have b6 : ¬ (1000 : ℚ) ≤ m / 60 := by intro hc; linarith
  have b7 : ¬ (1600 : ℚ) ≤ m / 60 := by intro hc; linarith
  have b8 : ¬ (2500 : ℚ) ≤ m / 60 := by intro hc; linarith
  have b9 : ¬ (4000 : ℚ) ≤ m / 60 := by intro hc; linarith
  constructor
  · simp [getLevelAndMultiplier, LEVEL_THRESHOLDS, MULTIPLIERS, levelLoop, List.zip,
      a0, a1, a2, a3, b4]
  · simp [refLevelMult, LEVEL_THRESHOLDS, MULTIPLIERS, range10,
      a0, a1, a2, a3, b4, b5, b6, b7, b8, b9]

theorem levelBand5 (m : ℚ) (h1 : 18000 ≤ m) (h2 : m < 36000) :
    getLevelAndMultiplier m = (5, 1.6) ∧ refLevelMult m = (5, 1.6) := by
  have a0 : (0 : ℚ) ≤ m / 60 := by linarith
  have a1 : (25 : ℚ) ≤ m / 60 := by linarith
  have a2 : (75 : ℚ) ≤ m / 60 := by linarith
  have a3 : (150 : ℚ) ≤ m / 60 := by linarith
  have a4 : (300 : ℚ) ≤ m / 60 := by linarith
  have b5 : ¬ (600 : ℚ) ≤ m / 60 := by intro hc; linarith
  have b6 : ¬ (1000 : ℚ) ≤ m / 60 := by intro hc; linarith
  have b7 : ¬ (1600 : ℚ) ≤ m / 60 := by intro hc; linarith
  have b8 : ¬ (2500 : ℚ) ≤ m / 60 := by intro hc; linarith
  have b9 : ¬ (4000 : ℚ) ≤ m / 60 := by intro hc; linarith
  constructor
  · simp [getLevelAndMultiplier, LEVEL_THRESHOLDS, MULTIPLIERS, levelLoop, List.zip,
      a0, a1, a2, a3, a4, b5]
  · simp [refLevelMult, LEVEL_THRESHOLDS, MULTIPLIERS, range10,
      a0, a1, a2, a3, a4, b5, b6, b7, b8, b9]

theorem levelBand6 (m : ℚ) (h1 : 36000 ≤ m) (h2 : m < 60000) :
    getLevelAndMultiplier m = (6, 1.85) ∧ refLevelMult m = (6, 1.85) := by
  have a0 : (0 : ℚ) ≤ m / 60 := by linarith
  have a1 : (25 : ℚ) ≤ m / 60 := by linarith
  have a2 : (75 : ℚ) ≤ m / 60 := by linarith
  have a3 : (150 : ℚ) ≤ m / 60 := by linarith
  have a4 : (300 : ℚ) ≤ m / 60 := by linarith
  have a5 : (600 : ℚ) ≤ m / 60 := by linarith
  have b6 : ¬ (1000 : ℚ) ≤ m / 60 := by intro hc; linarith
  have b7 : ¬ (1600 : ℚ) ≤ m / 60 := by intro hc; linarith
  have b8 : ¬ (2500 : ℚ) ≤ m / 60 := by intro hc; linarith
  have b9 : ¬ (4000 : ℚ) ≤ m / 60 := by intro hc; linarith
  constructor
  · simp [getLevelAndMultiplier, LEVEL_THRESHOLDS, MULTIPLIERS, levelLoop, List.zip,
      a0, a1, a2, a3, a4, a5, b6]
  · simp [refLevelMult, LEVEL_THRESHOLDS, MULTIPLIERS, range10,
      a0, a1, a2, a3, a4, a5, b6, b7, b8, b9]

theorem levelBand7 (m : ℚ) (h1 : 60000 ≤ m) (h2 : m < 96000) :
    getLevelAndMultiplier m = (7, 2.1) ∧ refLevelMult m = (7, 2.1) := by
  have a0 : (0 : ℚ) ≤ m / 60 := by linarith
  have a1 : (25 : ℚ) ≤ m / 60 := by linarith
  have a2 : (75 : ℚ) ≤ m / 60 := by linarith
  have a3 : (150 : ℚ) ≤ m / 60 := by linarith
  have a4 : (300 : ℚ) ≤ m / 60 := by linarith
  have a5 : (600 : ℚ) ≤ m / 60 := by linarith
  have a6 : (1000 : ℚ) ≤ m / 60 := by linarith
  have b7 : ¬ (1600 : ℚ) ≤ m / 60 := by intro hc; linarith
  have b8 : ¬ (2500 : ℚ) ≤ m / 60 := by intro hc; linarith
  have b9 : ¬ (4000 : ℚ) ≤ m / 60 := by intro hc; linarith
  constructor
  · simp [getLevelAndMultiplier, LEVEL_THRESHOLDS, MULTIPLIERS, levelLoop, List.zip,
      a0, a1, a2, a3, a4, a5, a6, b7]
  · simp [refLevelMult, LEVEL_THRESHOLDS, MULTIPLIERS, range10,
      a0, a1, a2, a3, a4, a5, a6, b7, b8, b9]

theorem levelBand8 (m : ℚ) (h1 : 96000 ≤ m) (h2 : m < 150000) :
    getLevelAndMultiplier m = (8, 2.4) ∧ refLevelMult m = (8, 2.4) := by
  have a0 : (0 : ℚ) ≤ m / 60 := by linarith
  have a1 : (25 : ℚ) ≤ m / 60 := by linarith
  have a2 : (75 : ℚ) ≤ m / 60 := by linarith
  have a3 : (150 : ℚ) ≤ m / 60 := by linarith
  have a4 : (300 : ℚ) ≤ m / 60 := by linarith
  have a5 : (600 : ℚ) ≤ m / 60 := by linarith
  have a6 : (1000 : ℚ) ≤ m / 60 := by linarith
  have a7 : (1600 : ℚ) ≤ m / 60 := by linarith
  have b8 : ¬ (2500 : ℚ) ≤ m / 60 := by intro hc; linarith
  have b9 : ¬ (4000 : ℚ) ≤ m / 60 := by intro hc; linarith
  constructor
  · simp [getLevelAndMultiplier, LEVEL_THRESHOLDS, MULTIPLIERS, levelLoop, List.zip,
      a0, a1, a2, a3, a4, a5, a6, a7, b8]
  · simp [refLevelMult, LEVEL_THRESHOLDS, MULTIPLIERS, range10,
      a0, a1, a2, a3, a4, a5, a6, a7, b8, b9]

theorem levelBand9 (m : ℚ) (h1 : 150000 ≤ m) (h2 : m < 240000) :
    getLevelAndMultiplier m = (9, 2.75) ∧ refLevelMult m = (9, 2.75) := by
  have a0 : (0 : ℚ) ≤ m / 60 := by linarith
  have a1 : (25 : ℚ) ≤ m / 60 := by linarith
  have a2 : (75 : ℚ) ≤ m / 60 := by linarith
  have a3 : (150 : ℚ) ≤ m / 60 := by linarith
  have a4 : (300 : ℚ) ≤ m / 60 := by linarith
  have a5 : (600 : ℚ) ≤ m / 60 := by linarith
  have a6 : (1000 : ℚ) ≤ m / 60 := by linarith
  have a7 : (1600 : ℚ) ≤ m / 60 := by linarith
  have a8 : (2500 : ℚ) ≤ m / 60 := by linarith
  have b9 : ¬ (4000 : ℚ) ≤ m / 60 := by intro hc; linarith
  constructor
  · simp [getLevelAndMultiplier, LEVEL_THRESHOLDS, MULTIPLIERS, levelLoop, List.zip,
      a0, a1, a2, a3, a4, a5, a6, a7, a8, b9]
  · simp [refLevelMult, LEVEL_THRESHOLDS, MULTIPLIERS, range10,
      a0, a1, a2, a3, a4, a5, a6, a7, a8, b9]

theorem levelBand10 (m : ℚ) (h1 : 240000 ≤ m) :
    getLevelAndMultiplier m = (10, 3.2) ∧ refLevelMult m = (10, 3.2) := by
  have a0 : (0 : ℚ) ≤ m / 60 := by linarith
  have a1 : (25 : ℚ) ≤ m / 60 := by linarith
  have a2 : (75 : ℚ) ≤ m / 60 := by linarith
  have a3 : (150 : ℚ) ≤ m / 60 := by linarith
  have a4 : (300 : ℚ) ≤ m / 60 := by linarith
  have a5 : (600 : ℚ) ≤ m / 60 := by linarith
  have a6 : (1000 : ℚ) ≤ m / 60 := by linarith
  have a7 : (1600 : ℚ) ≤ m / 60 := by linarith
  have a8 : (2500 : ℚ) ≤ m / 60 := by linarith
  have a9 : (4000 : ℚ) ≤ m / 60 := by linarith
  constructor
  · simp [getLevelAndMultiplier, LEVEL_THRESHOLDS, MULTIPLIERS, levelLoop, List.zip,
      a0, a1, a2, a3, a4, a5, a6, a7, a8, a9]
  · simp [refLevelMult, LEVEL_THRESHOLDS, MULTIPLIERS, range10,
      a0, a1, a2, a3, a4, a5, a6, a7, a8, a9]

/-- The loop of `getLevelAndMultiplier` agrees with the specification's
"greatest index such that hours ≥ T[i]" reading on every rational input. -/
theorem getLevelAndMultiplier_eq_ref (m : ℚ) :
    getLevelAndMultiplier m = refLevelMult m := by
  rcases lt_or_le m 0 with h | h0
  · exact (levelBandNeg m h).1.trans (levelBandNeg m h).2.symm
  rcases lt_or_le m 1500 with h | h1
  · exact (levelBand1 m h0 h).1.trans (levelBand1 m h0 h).2.symm
  rcases lt_or_le m 4500 with h | h2
  · exact (levelBand2 m h1 h).1.trans (levelBand2 m h1 h).2.symm
  rcases lt_or_le m 9000 with h | h3
  · exact (levelBand3 m h2 h).1.trans (levelBand3 m h2 h).2.symm
  rcases lt_or_le m 18000 with h | h4
  · exact (levelBand4 m h3 h).1.trans (levelBand4 m h3 h).2.symm
  rcases lt_or_le m 36000 with h | h5
  · exact (levelBand5 m h4 h).1.trans (levelBand5 m h4 h).2.symm
  rcases lt_or_le m 60000 with h | h6
  · exact (levelBand6 m h5 h).1.trans (levelBand6 m h5 h).2.symm
  rcases lt_or_le m 96000 with h | h7
  · exact (levelBand7 m h6 h).1.trans (levelBand7 m h6 h).2.symm
  rcases lt_or_le m 150000 with h | h8
  · exact (levelBand8 m h7 h).1.trans (levelBand8 m h7 h).2.symm
  rcases lt_or_le m 240000 with h | h9
  · exact (levelBand9 m h8 h).1.trans (levelBand9 m h8 h).2.symm
  exact (levelBand10 m h9).1.trans (levelBand10 m h9).2.symm

/-- C7: `getLevelAndMultiplier` equals the reference definition (greatest
index `i` of the threshold table with `hours ≥ T[i]`, level `i+1`,
multiplier `M[i]`, and `(1, M[0])` below the first threshold); in
particular 0 min ↦ (1, 1.0), 25×60 min ↦ (2, 1.1), 4000×60 min ↦
(10, 3.2), and every input above 4000 hours stays at (10, 3.2). -/
theorem levelCalculator_matches_reference :
    (∀ m : ℚ, getLevelAndMultiplier m = refLevelMult m) ∧
    getLevelAndMultiplier 0 = (1, 1.0) ∧
    getLevelAndMultiplier (25 * 60) = (2, 1.1) ∧
    getLevelAndMultiplier (4000 * 60) = (10, 3.2) ∧
    (∀ m : ℚ, 4000 * 60 ≤ m → getLevelAndMultiplier m = (10, 3.2)) := by
  refine ⟨getLevelAndMultiplier_eq_ref, ?_, ?_, ?_, ?_⟩
  · have := (levelBand1 0 (by norm_num) (by norm_num)).1
    rw [this]
    norm_num
  · have := (levelBand2 (25 * 60) (by norm_num) (by norm_num)).1
    rw [show ((25 : ℚ) * 60) = 1500 by norm_num] at this ⊢
    exact this
  · have := (levelBand10 (4000 * 60) (by norm_num)).1
    rw [show ((4000 : ℚ) * 60) = 240000 by norm_num] at this ⊢
    exact this
  · intro m hm
    exact (levelBand10 m (by linarith)).1

/-- Witness for C7: the pinned-at-max clause applied at 300000 minutes. -/
theorem levelCalculator_matches_reference_witness :
    getLevelAndMultiplier 300000 = (10, 3.2) :=
  levelCalculator_matches_reference.2.2.2.2 300000 (by norm_num)

/-- C10: `getLevelAndMultiplier` is total and internally consistent on
every rational input: the level is between 1 and 10, the multiplier is
always `MULTIPLIERS[level - 1]`, and every input below 25×60 minutes —
negative and fractional inputs included — yields exactly (1, 1.0). -/
theorem levelCalculator_total_consistent (m : ℚ) :
    1 ≤ (getLevelAndMultiplier m).1 ∧ (getLevelAndMultiplier m).1 ≤ 10 ∧
    (getLevelAndMultiplier m).2 = MULTIPLIERS.getD ((getLevelAndMultiplier m).1 - 1) 1 ∧
    (m < 25 * 60 → getLevelAndMultiplier m = (1, 1.0)) := by
  have contra : ∀ lo : ℚ, 1500 ≤ lo → lo ≤ m → m < 25 * 60 → False := by
    intro lo hlo hm hlt
    linarith
  rcases lt_or_le m 0 with h | h0
  · rw [(levelBandNeg m h).1]
    refine ⟨by norm_num, by norm_num, by norm_num [MULTIPLIERS, List.getD], fun _ => by norm_num⟩
  rcases lt_or_le m 1500 with h | h1
  · rw [(levelBand1 m h0 h).1]
    refine ⟨by norm_num, by norm_num, by norm_num [MULTIPLIERS, List.getD], fun _ => by norm_num⟩
  rcases lt_or_le m 4500 with h | h2
  · rw [(levelBand2 m h1 h).1]
    exact ⟨by norm_num, by norm_num, by norm_num [MULTIPLIERS, List.getD],
      fun hlt => (contra 1500 le_rfl h1 hlt).elim⟩
  rcases lt_or_le m 9000 with h | h3
  · rw [(levelBand3 m h2 h).1]
    exact ⟨by norm_num, by norm_num, by norm_num [MULTIPLIERS, List.getD],
      fun hlt => (contra 4500 (by norm_num) h2 hlt).elim⟩
  rcases lt_or_le m 18000 with h | h4
  · rw [(levelBand4 m h3 h).1]
    exact ⟨by norm_num, by norm_num, by norm_num [MULTIPLIERS, List.getD],
      fun hlt => (contra 9000 (by norm_num) h3 hlt).elim⟩
  rcases lt_or_le m 36000 with h | h5
  · rw [(levelBand5 m h4 h).1]
    exact ⟨by norm_num, by norm_num, by norm_num [MULTIPLIERS, List.getD],
      fun hlt => (contra 18000 (by norm_num) h4 hlt).elim⟩
  rcases lt_or_le m 60000 with h | h6
  · rw [(levelBand6 m h5 h).1]
    exact ⟨by norm_num, by norm_num, by norm_num [MULTIPLIERS, List.getD],
      fun hlt => (contra 36000 (by norm_num) h5 hlt).elim⟩
  rcases lt_or_le m 96000 with h | h7
  · rw [(levelBand7 m h6 h).1]
    exact ⟨by norm_num, by norm_num, by norm_num [MULTIPLIERS, List.getD],
      fun hlt => (contra 60000 (by norm_num) h6 hlt).elim⟩
  rcases lt_or_le m 150000 with h | h8
  · rw [(levelBand8 m h7 h).1]
    exact ⟨by norm_num, by norm_num, by norm_num [MULTIPLIERS, List.getD],
      fun hlt => (contra 96000 (by norm_num) h7 hlt).elim⟩
  rcases lt_or_le m 240000 with h | h9
  · rw [(levelBand9 m h8 h).1]
    exact ⟨by norm_num, by norm_num, by norm_num [MULTIPLIERS, List.getD],
      fun hlt => (contra 150000 (by norm_num) h8 hlt).elim⟩
  rw [(levelBand10 m h9).1]
  exact ⟨by norm_num, by norm_num, by norm_num [MULTIPLIERS, List.getD],
    fun hlt => (contra 240000 (by norm_num) h9 hlt).elim⟩

/-- Witness for C10: the below-first-threshold clause applied at the
negative fractional input -7/2 minutes. -/
theorem levelCalculator_total_consistent_witness :
    getLevelAndMultiplier (-7/2) = (1, 1.0) :=
  (levelCalculator_total_consistent (-7/2)).2.2.2 (by norm_num)

/-- Characterization of `finishTimerAward` when the duration and hard-cap
checks pass and the domain exists: the full committed pair. -/
theorem finishTimer_success (db : DB) (todayStart st et tp : ℤ) (domId : ℕ)
    (actId : Option ℕ) (domain : Domain) (dur : ℤ)
    (hdur : dur = ⌊((et - st - tp : ℤ) : ℚ) / 1000 / 60⌋)
    (hfind : db.domains.find? (fun d => d.id == domId) = some domain)
    (h1 : ¬ dur < 1)
    (hcap : ¬ getTotalMinutesToday db todayStart + dur > DAILY_HARD_CAP_MINUTES) :
    finishTimerAward db todayStart st et tp domId actId =
      (TimerOutcome.awarded
          (calculateSessionPoints (dur : ℚ) domain.baseRate domain.multiplier
            (timerPenalty db todayStart domId domain))
          (timerPenalty db todayStart domId domain),
        { db with
            sessions := db.sessions ++
              [{ id := db.nextSessionId, startTime := st, endTime := et,
                 durationMinutes := dur, domainId := domId, activityId := actId,
                 pointsAwarded := calculateSessionPoints (dur : ℚ) domain.baseRate
                   domain.multiplier (timerPenalty db todayStart domId domain),
                 notes := none, source := .timer, reviewFlag := false }],
            nextSessionId := db.nextSessionId + 1,
            domains := db.domains.map (fun d =>
              if d.id == domId then
                { d with
                    lifetimeMinutes := domain.lifetimeMinutes + (dur : ℚ),
                    level := (getLevelAndMultiplier (domain.lifetimeMinutes + (dur : ℚ))).1,
                    multiplier := (getLevelAndMultiplier (domain.lifetimeMinutes + (dur : ℚ))).2 }
              else d),
            ledger := db.ledger ++
              [{ id := db.nextLedgerId, timestamp := et, kind := .earn_session,
                 pointsDelta := ((calculateSessionPoints (dur : ℚ) domain.baseRate
                   domain.multiplier (timerPenalty db todayStart domId domain) : ℤ) : ℚ),
                 referenceId := db.nextSessionId,
                 description := "Session: " ++ domain.name ++
                   (match actId.bind (fun aid =>
                       (db.activities.find? (fun a => a.id == aid)).map (fun a => a.name)) with
                    | some n => " - " ++ n
                    | none => "") }],
            nextLedgerId := db.nextLedgerId + 1 }) := by
  subst hdur
  unfold finishTimerAward
  rw [if_neg h1]
  simp only [hfind]
  rw [if_neg hcap]
  rfl

/-- Characterization of `addManualSession` when the duration is positive
and the domain exists: the full committed pair.  The penalty argument is
the `false` default. -/
theorem addManual_success (db : DB) (domId : ℕ) (actId : Option ℕ) (dur : ℤ)
    (notes : Option String) (now : ℤ) (domain : Domain)
    (hfind : db.domains.find? (fun d => d.id == domId) = some domain)
    (h0 : ¬ dur ≤ 0) :
    addManualSession db domId actId dur notes now =
      (ManualOutcome.awarded
          (calculateSessionPoints (dur : ℚ) domain.baseRate domain.multiplier false),
        { db with
            sessions := db.sessions ++
              [{ id := db.nextSessionId, startTime := now - dur * 60 * 1000, endTime := now,
                 durationMinutes := dur, domainId := domId, activityId := actId,
                 pointsAwarded := calculateSessionPoints (dur : ℚ) domain.baseRate
                   domain.multiplier false,
                 notes := notes, source := .manual, reviewFlag := true }],
            nextSessionId := db.nextSessionId + 1,
            domains := db.domains.map (fun d =>
              if d.id == domId then
                { d with
                    lifetimeMinutes := domain.lifetimeMinutes + (dur : ℚ),
                    level := (getLevelAndMultiplier (domain.lifetimeMinutes + (dur : ℚ))).1,
                    multiplier := (getLevelAndMultiplier (domain.lifetimeMinutes + (dur : ℚ))).2 }
              else d),
            ledger := db.ledger ++
              [{ id := db.nextLedgerId, timestamp := now, kind := .earn_session,
                 pointsDelta := ((calculateSessionPoints (dur : ℚ) domain.baseRate
                   domain.multiplier false : ℤ) : ℚ),
                 referenceId := db.nextSessionId,
                 description := "Manual Session: " ++ domain.name }],
            nextLedgerId := db.nextLedgerId + 1 }) := by
  unfold addManualSession
  rw [if_neg h0]
  simp only [hfind]

/-- C6: a successful award computes points from the domain's pre-award
multiplier; only the stored domain record gets `lifetimeMinutes` increased
by the duration with level and multiplier recomputed by the level
calculator from the new lifetime (the session never benefits from the
level-up it causes).  Both the timer path and the manual path. -/
theorem session_award_pre_update_multiplier :
    (∀ db todayStart st et tp domId actId domain dur points penalty,
      dur = ⌊((et - st - tp : ℤ) : ℚ) / 1000 / 60⌋ →
      db.domains.find? (fun d => d.id == domId) = some domain →
      (finishTimerAward db todayStart st et tp domId actId).1 =
        TimerOutcome.awarded points penalty →
      points = calculateSessionPoints (dur : ℚ) domain.baseRate domain.multiplier penalty ∧
      (finishTimerAward db todayStart st et tp domId actId).2.domains =
        db.domains.map (fun d =>
          if d.id == domId then
            { d with
                lifetimeMinutes := domain.lifetimeMinutes + (dur : ℚ),
                level := (getLevelAndMultiplier (domain.lifetimeMinutes + (dur : ℚ))).1,
                multiplier := (getLevelAndMultiplier (domain.lifetimeMinutes + (dur : ℚ))).2 }
          else d)) ∧
    (∀ db domId actId dur notes now domain points,
      db.domains.find? (fun d => d.id == domId) = some domain →
      (addManualSession db domId actId dur notes now).1 = ManualOutcome.awarded points →
      points = calculateSessionPoints (dur : ℚ) domain.baseRate domain.multiplier false ∧
      (addManualSession db domId actId dur notes now).2.domains =
        db.domains.map (fun d =>
          if d.id == domId then
            { d with
                lifetimeMinutes := domain.lifetimeMinutes + (dur : ℚ),
                level := (getLevelAndMultiplier (domain.lifetimeMinutes + (dur : ℚ))).1,
                multiplier := (getLevelAndMultiplier (domain.lifetimeMinutes + (dur : ℚ))).2 }
          else d)) := by
  constructor
  · intro db todayStart st et tp domId actId domain dur points penalty hdur hfind hres
    by_cases h1 : dur < 1
    · exfalso
      simp only [finishTimerAward] at hres
      rw [← hdur, if_pos h1] at hres
      simp at hres
    by_cases hcap : getTotalMinutesToday db todayStart + dur > DAILY_HARD_CAP_MINUTES
    · exfalso
      simp only [finishTimerAward] at hres
      rw [← hdur, if_neg h1] at hres
      simp only [hfind] at hres
      rw [if_pos hcap] at hres
      simp at hres
    have heq := finishTimer_success db todayStart st et tp domId actId domain dur hdur
      hfind h1 hcap
    rw [heq] at hres ⊢
    simp only [TimerOutcome.awarded.injEq] at hres
    obtain ⟨hp, hpen⟩ := hres
    subst hpen
    exact ⟨hp.symm, rfl⟩
  · intro db domId actId dur notes now domain points hfind hres
    by_cases h0 : dur ≤ 0
    · exfalso
      simp only [addManualSession] at hres
      rw [if_pos h0] at hres
      simp at hres
    have heq := addManual_success db domId actId dur notes now domain hfind h0
    rw [heq] at hres ⊢
    simp only [ManualOutcome.awarded.injEq] at hres
    exact ⟨hres.symm, rfl⟩

/-- Witness for C6: a 10-minute timer session on `domainW` awards
`calculateSessionPoints` of the pre-award multiplier, here 2 points. -/
theorem session_award_pre_update_multiplier_witness :
    (2 : ℤ) = calculateSessionPoints ((10 : ℤ) : ℚ) domainW.baseRate domainW.multiplier false := by
  have hres : (finishTimerAward dbW6 0 0 600000 0 1 none).1 =
      TimerOutcome.awarded 2 false := by
    have heq := finishTimer_success dbW6 0 0 600000 0 1 none domainW 10
      (by norm_num) (by rfl) (by norm_num) (by decide)
    rw [heq]
    norm_num [timerPenalty, getDomainMinutesToday, getTodaysSessions, dbW6, emptyDB,
      jsOrDefault, domainW, calculateSessionPoints, jsRound]
  exact (session_award_pre_update_multiplier.1 dbW6 0 0 600000 0 1 none domainW 10 2 false
    (by norm_num) (by rfl) hres).1

/-- C1 (amended): only the timer path checks the daily hard cap.  When a
timer session would push `totalMinutesToday` past 720 minutes the award is
rejected and the database is returned unchanged (no points, no session, no
ledger entry, no lifetime update); the manual path performs no hard-cap
check at all and always commits once the domain exists and the duration is
positive. -/
theorem hard_cap_timer_only :
    (∀ db todayStart st et tp domId actId domain dur,
      dur = ⌊((et - st - tp : ℤ) : ℚ) / 1000 / 60⌋ →
      db.domains.find? (fun d => d.id == domId) = some domain →
      ¬ dur < 1 →
      getTotalMinutesToday db todayStart + dur > DAILY_HARD_CAP_MINUTES →
      finishTimerAward db todayStart st et tp domId actId =
        (TimerOutcome.hardCapExceeded, db)) ∧
    (∀ db domId actId dur notes now domain,
      db.domains.find? (fun d => d.id == domId) = some domain →
      ¬ dur ≤ 0 →
      (addManualSession db domId actId dur notes now).1 =
        ManualOutcome.awarded
          (calculateSessionPoints (dur : ℚ) domain.baseRate domain.multiplier false) ∧
      (addManualSession db domId actId dur notes now).2.sessions ≠ db.sessions) := by
  constructor
  · intro db todayStart st et tp domId actId domain dur hdur hfind h1 hcap
    simp only [finishTimerAward]
    rw [← hdur, if_neg h1]
    simp only [hfind]
    rw [if_pos hcap]
  · intro db domId actId dur notes now domain hfind h0
    have heq := addManual_success db domId actId dur notes now domain hfind h0
    rw [heq]
    refine ⟨rfl, ?_⟩
    simp

/-- Counterexample to C1 as stated: with 700 minutes logged today, a manual
25-minute award (700 + 25 = 725 > 720) is not rejected — it awards 4 points
and persists the session and a ledger entry. -/
theorem hard_cap_timer_only_counterexample :
    getTotalMinutesToday dbC1 0 + 25 > DAILY_HARD_CAP_MINUTES ∧
    (addManualSession dbC1 1 none 25 none 43200000).1 = ManualOutcome.awarded 4 ∧
    (addManualSession dbC1 1 none 25 none 43200000).2.sessions.length =
      dbC1.sessions.length + 1 ∧
    (addManualSession dbC1 1 none 25 none 43200000).2.ledger.length =
      dbC1.ledger.length + 1 := by
  have heq := addManual_success dbC1 1 none 25 none 43200000 domainW (by rfl) (by norm_num)
  have hpts : calculateSessionPoints ((25 : ℤ) : ℚ) domainW.baseRate domainW.multiplier false
      = 4 := by
    norm_num [calculateSessionPoints, domainW, jsRound]
  refine ⟨by decide, ?_, ?_, ?_⟩
  · rw [heq, hpts]
  · rw [heq]
    simp
  · rw [heq]
    simp

/-- Witness for C1 (amended): the timer path at the same database rejects a
25-minute session outright, leaving the database untouched. -/
theorem hard_cap_timer_only_witness :
    finishTimerAward dbC1 0 43200000 44700000 0 1 none =
      (TimerOutcome.hardCapExceeded, dbC1) :=
  hard_cap_timer_only.1 dbC1 0 43200000 44700000 0 1 none domainW 25
    (by norm_num) (by rfl) (by norm_num) (by decide)

/-- C4: importing a configuration (v1 or v2) clears and replaces only the
Domain / Activity / ShopItem catalogs; the Session, Bonus, Redemption and
LedgerEntry tables after the import are exactly what they were before. -/
theorem import_preserves_history (db : DB) (config : PersonalConfig) :
    (importPersonalConfig db config).2.sessions = db.sessions ∧
    (importPersonalConfig db config).2.bonuses = db.bonuses ∧
    (importPersonalConfig db config).2.redemptions = db.redemptions ∧
    (importPersonalConfig db config).2.ledger = db.ledger := by
  obtain ⟨a, b, c, d, _, _, _, _⟩ := catalogOnly_import db config
  exact ⟨a, b, c, d⟩

/-- C2 (amended): an award of a session shorter than 5 minutes stores the
Session with `pointsAwarded = 0` and still appends an `earn_session` ledger
entry with `pointsDelta = 0` — zero-point sessions do produce a ledger
entry.  Both the timer path (durations 1–4 minutes) and the manual path. -/
theorem short_session_zero_points_ledger :
    (∀ db todayStart st et tp domId actId domain dur,
      dur = ⌊((et - st - tp : ℤ) : ℚ) / 1000 / 60⌋ →
      db.domains.find? (fun d => d.id == domId) = some domain →
      ¬ dur < 1 → dur < 5 →
      ¬ getTotalMinutesToday db todayStart + dur > DAILY_HARD_CAP_MINUTES →
      (finishTimerAward db todayStart st et tp domId actId).1 =
        TimerOutcome.awarded 0 (timerPenalty db todayStart domId domain) ∧
      (finishTimerAward db todayStart st et tp domId actId).2.sessions =
        db.sessions ++
          [{ id := db.nextSessionId, startTime := st, endTime := et,
             durationMinutes := dur, domainId := domId, activityId := actId,
             pointsAwarded := 0, notes := none, source := .timer, reviewFlag := false }] ∧
      (finishTimerAward db todayStart st et tp domId actId).2.ledger =
        db.ledger ++
          [{ id := db.nextLedgerId, timestamp := et, kind := .earn_session,
             pointsDelta := 0, referenceId := db.nextSessionId,
             description := "Session: " ++ domain.name ++
               (match actId.bind (fun aid =>
                   (db.activities.find? (fun a => a.id == aid)).map (fun a => a.name)) with
                | some n => " - " ++ n
                | none => "") }]) ∧
    (∀ db domId actId dur notes now domain,
      db.domains.find? (fun d => d.id == domId) = some domain →
      ¬ dur ≤ 0 → dur < 5 →
      (addManualSession db domId actId dur notes now).1 = ManualOutcome.awarded 0 ∧
      (addManualSession db domId actId dur notes now).2.ledger =
        db.ledger ++
          [{ id := db.nextLedgerId, timestamp := now, kind := .earn_session,
             pointsDelta := 0, referenceId := db.nextSessionId,
             description := "Manual Session: " ++ domain.name }]) := by
  constructor
  · intro db todayStart st et tp domId actId domain dur hdur hfind h1 h5 hcap
    have hz : calculateSessionPoints (dur : ℚ) domain.baseRate domain.multiplier
        (timerPenalty db todayStart domId domain) = 0 := by
      have : ((dur : ℤ) : ℚ) < 5 := by exact_mod_cast h5
      simp [calculateSessionPoints, this]
    have heq := finishTimer_success db todayStart st et tp domId actId domain dur hdur
      hfind h1 hcap
    rw [heq, hz]
    refine ⟨rfl, rfl, ?_⟩
    norm_num
  · intro db domId actId dur notes now domain hfind h0 h5
    have hz : calculateSessionPoints (dur : ℚ) domain.baseRate domain.multiplier false
        = 0 := by
      have : ((dur : ℤ) : ℚ) < 5 := by exact_mod_cast h5
      simp [calculateSessionPoints, this]
    have heq := addManual_success db domId actId dur notes now domain hfind h0
    rw [heq, hz]
    refine ⟨rfl, ?_⟩
    norm_num

/-- Counterexample to C2 as stated: a 4-minute timer session awards 0
points and stores the session with `pointsAwarded = 0`, but the ledger
still grows by one (zero-delta) entry, where the claim says no ledger
entry is appended. -/
theorem short_session_zero_points_ledger_counterexample :
    (finishTimerAward dbC2 0 0 240000 0 1 none).1 = TimerOutcome.awarded 0 false ∧
    (finishTimerAward dbC2 0 0 240000 0 1 none).2.sessions.map
      (fun s => s.pointsAwarded) = [0] ∧
    (finishTimerAward dbC2 0 0 240000 0 1 none).2.ledger.length =
      dbC2.ledger.length + 1 ∧
    (finishTimerAward dbC2 0 0 240000 0 1 none).2.ledger.map
      (fun e => e.pointsDelta) = [0] := by
  have heq := finishTimer_success dbC2 0 0 240000 0 1 none domainW 4
    (by norm_num) (by rfl) (by norm_num) (by decide)
  have hz : calculateSessionPoints ((4 : ℤ) : ℚ) domainW.baseRate domainW.multiplier
      (timerPenalty dbC2 0 1 domainW) = 0 := by
    norm_num [calculateSessionPoints]
  have hpen : timerPenalty dbC2 0 1 domainW = false := by
    simp [timerPenalty, getDomainMinutesToday, getTodaysSessions, dbC2, emptyDB,
      jsOrDefault, domainW]
  rw [heq, hz, hpen]
  refine ⟨rfl, ?_, ?_, ?_⟩
  · simp [dbC2, emptyDB]
  · simp [dbC2, emptyDB]
  · simp [dbC2, emptyDB]

/-- Witness for C2 (amended): the manual clause at a concrete 3-minute
session on `dbC2`. -/
theorem short_session_zero_points_ledger_witness :
    (addManualSession dbC2 1 none 3 none 1000).1 = ManualOutcome.awarded 0 :=
  (short_session_zero_points_ledger.2 dbC2 1 none 3 none 1000 domainW
    (by rfl) (by norm_num) (by norm_num)).1

/-- C5 (amended): for awards of at least 5 minutes the points are
`Math.round(duration/60 × baseRate × multiplier × (1 − 0.3 when the
penalty applies))`; on the timer path the penalty applies exactly when
`minutesInDomainToday ≥ dailySoftCapMinutes` (default 360, a 0 value also
falling back to 360), while the manual path never applies the penalty; JS
`Math.round` rounds half toward +∞, which on nonnegative values equals
round-half-away-from-zero. -/
theorem points_formula_soft_cap :
    (∀ (d b m : ℚ) (pen : Bool), ¬ d < 5 →
      calculateSessionPoints d b m pen =
        jsRound (d / 60 * b * m * (if pen then 1 - 3/10 else 1))) ∧
    (∀ db todayStart domId domain,
      timerPenalty db todayStart domId domain = true ↔
        jsOrDefault domain.dailySoftCapMinutes 360 ≤
          ((getDomainMinutesToday db todayStart domId : ℤ) : ℚ)) ∧
    (∀ db todayStart st et tp domId actId domain dur,
      dur = ⌊((et - st - tp : ℤ) : ℚ) / 1000 / 60⌋ →
      db.domains.find? (fun d => d.id == domId) = some domain →
      ¬ dur < 1 →
      ¬ getTotalMinutesToday db todayStart + dur > DAILY_HARD_CAP_MINUTES →
      (finishTimerAward db todayStart st et tp domId actId).1 =
        TimerOutcome.awarded
          (calculateSessionPoints (dur : ℚ) domain.baseRate domain.multiplier
            (timerPenalty db todayStart domId domain))
          (timerPenalty db todayStart domId domain)) ∧
    (∀ db domId actId dur notes now domain,
      db.domains.find? (fun d => d.id == domId) = some domain →
      ¬ dur ≤ 0 →
      (addManualSession db domId actId dur notes now).1 =
        ManualOutcome.awarded
          (calculateSessionPoints (dur : ℚ) domain.baseRate domain.multiplier false)) ∧
    (∀ q : ℚ, 0 ≤ q → jsRound q = roundHalfAwayFromZero q) := by
  refine ⟨?_, ?_, ?_, ?_, ?_⟩
  · intro d b m pen hd
    cases pen with
    | true => simp only [calculateSessionPoints, if_neg hd, if_pos]
    | false =>
        simp only [calculateSessionPoints, if_neg hd]
        norm_num
  · intro db todayStart domId domain
    simp [timerPenalty]
  · intro db todayStart st et tp domId actId domain dur hdur hfind h1 hcap
    rw [finishTimer_success db todayStart st et tp domId actId domain dur hdur hfind h1 hcap]
  · intro db domId actId dur notes now domain hfind h0
    rw [addManual_success db domId actId dur notes now domain hfind h0]
  · intro q hq
    simp [jsRound, roundHalfAwayFromZero, if_pos hq]

/-- Counterexample to C5 as stated: with `minutesInDomainToday = 360 ≥ 360`
a manual 60-minute award pays the unpenalized 10 points, not the
`round(10 × 0.7) = 7` the claim requires. -/
theorem points_formula_soft_cap_counterexample :
    jsOrDefault domainW.dailySoftCapMinutes 360 ≤
      ((getDomainMinutesToday dbC5 0 1 : ℤ) : ℚ) ∧
    (addManualSession dbC5 1 none 60 none 43200000).1 = ManualOutcome.awarded 10 ∧
    (10 : ℤ) ≠ roundHalfAwayFromZero
      ((60 : ℚ) / 60 * domainW.baseRate * domainW.multiplier * (1 - 3/10)) := by
  have h360 : getDomainMinutesToday dbC5 0 1 = 360 := by decide
  refine ⟨?_, ?_, ?_⟩
  · rw [h360]
    norm_num [jsOrDefault, domainW]
  · have heq := addManual_success dbC5 1 none 60 none 43200000 domainW (by rfl) (by norm_num)
    rw [heq]
    norm_num [calculateSessionPoints, domainW, jsRound]
  · norm_num [roundHalfAwayFromZero, domainW]

/-- Witness for C5 (amended): the manual clause at the same soft-capped
database — the award is the penalty-free `calculateSessionPoints`. -/
theorem points_formula_soft_cap_witness :
    (addManualSession dbC5 1 none 60 none 43200000).1 =
      ManualOutcome.awarded
        (calculateSessionPoints ((60 : ℤ) : ℚ) domainW.baseRate domainW.multiplier false) :=
  points_formula_soft_cap.2.2.2.1 dbC5 1 none 60 none 43200000 domainW
    (by rfl) (by norm_num)

theorem mem_insertByTimestampDesc {x r : Redemption} {l : List Redemption} :
    x ∈ insertByTimestampDesc r l ↔ x = r ∨ x ∈ l := by
  induction l with
  | nil => simp [insertByTimestampDesc]
  | cons y ys ih =>
      simp only [insertByTimestampDesc]
      split_ifs with h
      · rw [List.mem_cons, ih, List.mem_cons]
        tauto
      · exact List.mem_cons

theorem pairwise_insertByTimestampDesc {r : Redemption} {l : List Redemption}
    (hl : l.Pairwise (fun a b => b.timestamp ≤ a.timestamp)) :
    (insertByTimestampDesc r l).Pairwise (fun a b => b.timestamp ≤ a.timestamp) := by
  induction l with
  | nil => simp [insertByTimestampDesc]
  | cons y ys ih =>
      obtain ⟨hy, hys⟩ := List.pairwise_cons.mp hl
      simp only [insertByTimestampDesc]
      split_ifs with h
      · refine List.pairwise_cons.mpr ⟨?_, ih hys⟩
        intro z hz
        rcases mem_insertByTimestampDesc.mp hz with rfl | hz'
        · exact h
        · exact hy z hz'
      · push_neg at h
        refine List.pairwise_cons.mpr ⟨?_, hl⟩
        intro z hz
        rcases List.mem_cons.mp hz with rfl | hz'
        · exact le_of_lt h
        · exact le_trans (hy z hz') (le_of_lt h)

theorem pairwise_sortByTimestampDesc (l : List Redemption) :
    (sortByTimestampDesc l).Pairwise (fun a b => b.timestamp ≤ a.timestamp) := by
  induction l with
  | nil => simp [sortByTimestampDesc]
  | cons x xs ih =>
      simp only [sortByTimestampDesc, List.foldr_cons] at ih ⊢
      exact pairwise_insertByTimestampDesc ih

theorem pairwise_recentRedemptions (db : DB) :
    (recentRedemptions db).Pairwise (fun a b => b.timestamp ≤ a.timestamp) :=
  List.Pairwise.sublist (List.take_sublist _ _) (pairwise_sortByTimestampDesc _)

/-- On a list sorted by descending timestamp, searching for the first
redemption of an item inside the cooldown window is the same as taking the
first (most recent) redemption of the item and testing it alone: any older
redemption of the same item is further outside the window. -/
theorem find?_cooldown {l : List Redemption}
    (hl : l.Pairwise (fun a b => b.timestamp ≤ a.timestamp))
    (iid : ℕ) (now : ℤ) (c : ℚ) :
    l.find? (fun r => r.shopItemId == iid && decide (inWindow now c r)) =
      (l.find? (fun r => r.shopItemId == iid)).bind
        (fun r => if inWindow now c r then some r else none) := by
  induction l with
  | nil => rfl
  | cons x xs ih =>
      obtain ⟨hx, hxs⟩ := List.pairwise_cons.mp hl
      rw [List.find?_cons, List.find?_cons]
      cases hpi : (x.shopItemId == iid) with
      | false =>
          simp only [hpi, Bool.false_and]
          exact ih hxs
      | true =>
          cases hpw : decide (inWindow now c x) with
          | true =>
              simp only [hpi, hpw, Bool.and_true]
              simp [of_decide_eq_true hpw]
          | false =>
              simp only [hpi, hpw, Bool.and_false]
              have hnw : ¬ inWindow now c x := of_decide_eq_false hpw
              have hnone : xs.find?
                  (fun r => r.shopItemId == iid && decide (inWindow now c r)) = none := by
                apply List.find?_eq_none.mpr
                intro z hz hzp
                simp only [Bool.and_eq_true] at hzp
                obtain ⟨_, hzw⟩ := hzp
                apply hnw
                have hzw' : inWindow now c z := of_decide_eq_true hzw
                have hts : z.timestamp ≤ x.timestamp := hx z hz
                unfold inWindow at hzw' ⊢
                have hcast : ((now - x.timestamp : ℤ) : ℚ) ≤ ((now - z.timestamp : ℤ) : ℚ) := by
                  have : (z.timestamp : ℚ) ≤ (x.timestamp : ℚ) := by exact_mod_cast hts
                  push_cast
                  linarith
                exact lt_of_le_of_lt hcast hzw'
              rw [hnone]
              simp [hnw]

/-- C8 (amended): with a truthy `cooldownDays = c` and sufficient balance,
a purchase is rejected with `OnCooldown(daysLeft)` iff the most recent
redemption of the item **among the ten most recent redemptions overall**
(`orderBy('timestamp').reverse().limit(10)`) lies inside the cooldown
window `now − timestamp < c × 86400000`, with
`daysLeft = ⌈(timestamp + c × 86400000 − now) / 86400000⌉`; redemptions of
the item older than the ten most recent redemptions are not consulted. -/
theorem purchase_cooldown_top10 (db : DB) (item : ShopItem) (now : ℤ) (confirmed : Bool)
    (c : ℚ) (hc : item.cooldownDays = some c) (hc0 : c ≠ 0)
    (hb : ¬ getCurrentBalance db < item.pricePoints) (k : ℤ) :
    (handlePurchase db item now confirmed).1 = PurchaseOutcome.onCooldown k ↔
      ∃ r, (recentRedemptions db).find? (fun r => r.shopItemId == item.id) = some r ∧
        inWindow now c r ∧
        k = ⌈((r.timestamp : ℚ) + c * 24 * 60 * 60 * 1000 - now)
              / (24 * 60 * 60 * 1000)⌉ := by
  have hch : cooldownHit item now (recentRedemptions db) =
      ((recentRedemptions db).find? (fun r => r.shopItemId == item.id)).bind
        (fun r => if inWindow now c r then some r else none) := by
    simp only [cooldownHit, hc]
    rw [if_neg hc0]
    exact find?_cooldown (pairwise_recentRedemptions db) item.id now c
  cases hfind : (recentRedemptions db).find? (fun r => r.shopItemId == item.id) with
  | none =>
      have hnone : cooldownHit item now (recentRedemptions db) = none := by
        rw [hch, hfind]
        rfl
      simp only [handlePurchase, if_neg hb, hnone]
      cases confirmed <;> simp
  | some r =>
      by_cases hwin : inWindow now c r
      · have hsome : cooldownHit item now (recentRedemptions db) = some r := by
          rw [hch, hfind]
          simp [hwin]
        simp only [handlePurchase, if_neg hb, hsome]
        simp [hc, hwin, eq_comm]
      · have hnone : cooldownHit item now (recentRedemptions db) = none := by
          rw [hch, hfind]
          simp [hwin]
        simp only [handlePurchase, if_neg hb, hnone]
        cases confirmed <;> simp [hwin]

/-- Counterexample to C8 as stated: the most recent redemption of `itemC8`
in the full history (`redA`, well inside its 7-day window at `now = 20`) is
pushed out of the ten most recent redemptions by ten redemptions of another
item, so the purchase succeeds instead of being rejected `OnCooldown`. -/
theorem purchase_cooldown_top10_counterexample :
    (sortByTimestampDesc dbC8.redemptions).find?
      (fun r => r.shopItemId == itemC8.id) = some redA ∧
    inWindow 20 7 redA ∧
    (handlePurchase dbC8 itemC8 20 true).1 = PurchaseOutcome.purchased 12 := by
  have hbal : getCurrentBalance dbC8 = 1000 := by
    norm_num [getCurrentBalance, dbC8, emptyDB, entrySeed]
  have hb : ¬ getCurrentBalance dbC8 < itemC8.pricePoints := by
    rw [hbal]
    norm_num [itemC8]
  have hcd : cooldownHit itemC8 20 (recentRedemptions dbC8) = none := by rfl
  refine ⟨by rfl, ?_, ?_⟩
  · norm_num [inWindow, redA]
  · simp only [handlePurchase, if_neg hb, hcd]
    rfl

/-- Witness for C8 (amended): re-purchasing `itemC8` right after the `redA`
redemption (20 ms later) is rejected with `OnCooldown(7)`. -/
theorem purchase_cooldown_top10_witness :
    (handlePurchase dbC8b itemC8 20 true).1 = PurchaseOutcome.onCooldown 7 := by
  have hbal : getCurrentBalance dbC8b = 1000 := by
    norm_num [getCurrentBalance, dbC8b, emptyDB, entrySeed]
  have hb : ¬ getCurrentBalance dbC8b < itemC8.pricePoints := by
    rw [hbal]
    norm_num [itemC8]
  exact (purchase_cooldown_top10 dbC8b itemC8 20 true 7 (by rfl) (by norm_num) hb 7).mpr
    ⟨redA, by rfl, by norm_num [inWindow, redA], by
      norm_num [redA]
      rw [eq_comm, Int.ceil_eq_iff]
      norm_num⟩

/-- C3 (amended): the purchase sequence is not transactional.  When the
checks pass, a failure of the first write (`redemptions.add`) leaves the
database unchanged, but a failure of the second write (`ledger.add`) leaves
the new Redemption committed with no `spend_shop` ledger entry (partial
commit).  At every failure point the converse inconsistency is impossible:
the ledger is only ever extended together with its Redemption. -/
theorem purchase_not_transactional (db : DB) (item : ShopItem) (now : ℤ)
    (hb : ¬ getCurrentBalance db < item.pricePoints)
    (hcd : cooldownHit item now (recentRedemptions db) = none) :
    (handlePurchaseFallible db item now true (some 0)).2 = db ∧
    ((handlePurchaseFallible db item now true (some 1)).2.redemptions =
        db.redemptions ++
          [{ id := db.nextRedemptionId, timestamp := now, shopItemId := item.id,
             pricePoints := item.pricePoints,
             notes := if item.requiresReview then some "Requires review before action"
                      else none }] ∧
      (handlePurchaseFallible db item now true (some 1)).2.ledger = db.ledger) ∧
    (∀ failAfter, (handlePurchaseFallible db item now true failAfter).2.ledger = db.ledger ∨
      ((handlePurchaseFallible db item now true failAfter).2.ledger =
          db.ledger ++
            [{ id := db.nextLedgerId, timestamp := now, kind := .spend_shop,
               pointsDelta := -item.pricePoints, referenceId := db.nextRedemptionId,
               description := "Purchase: " ++ item.name }] ∧
        (handlePurchaseFallible db item now true failAfter).2.redemptions =
          db.redemptions ++
            [{ id := db.nextRedemptionId, timestamp := now, shopItemId := item.id,
               pricePoints := item.pricePoints,
               notes := if item.requiresReview then some "Requires review before action"
                        else none }])) := by
  refine ⟨?_, ⟨?_, ?_⟩, ?_⟩
  · simp only [handlePurchaseFallible, if_neg hb, hcd]
    rfl
  · simp only [handlePurchaseFallible, if_neg hb, hcd]
    rfl
  · simp only [handlePurchaseFallible, if_neg hb, hcd]
    rfl
  · intro failAfter
    simp only [handlePurchaseFallible, if_neg hb, hcd]
    match failAfter with
    | none => right; exact ⟨rfl, rfl⟩
    | some 0 => left; rfl
    | some 1 => left; rfl
    | some (n + 2) => right; exact ⟨rfl, rfl⟩

/-- Counterexample to C3 as stated: a purchase whose `ledger.add` throws
after `redemptions.add` succeeded reports a failure yet leaves a Redemption
committed with no matching `spend_shop` ledger entry — the touched entities
are not "left as they were before the call". -/
theorem purchase_not_transactional_counterexample :
    (handlePurchaseFallible dbC3 itemC8 5 true (some 1)).1 =
      PurchaseOutcome.persistenceFailed ∧
    (handlePurchaseFallible dbC3 itemC8 5 true (some 1)).2.redemptions = [redC3] ∧
    (handlePurchaseFallible dbC3 itemC8 5 true (some 1)).2.redemptions ≠
      dbC3.redemptions ∧
    (handlePurchaseFallible dbC3 itemC8 5 true (some 1)).2.ledger = dbC3.ledger ∧
    ∀ e ∈ (handlePurchaseFallible dbC3 itemC8 5 true (some 1)).2.ledger,
      ¬ (e.kind = EntryKind.spend_shop ∧ e.referenceId = redC3.id) := by
  have hbal : getCurrentBalance dbC3 = 1000 := by
    norm_num [getCurrentBalance, dbC3, emptyDB, entrySeed]
  have hb : ¬ getCurrentBalance dbC3 < itemC8.pricePoints := by
    rw [hbal]
    norm_num [itemC8]
  have hcd : cooldownHit itemC8 5 (recentRedemptions dbC3) = none := by rfl
  have hred : (handlePurchaseFallible dbC3 itemC8 5 true (some 1)).2.redemptions
      = [redC3] := by
    simp only [handlePurchaseFallible, if_neg hb, hcd]
    rfl
  have hled : (handlePurchaseFallible dbC3 itemC8 5 true (some 1)).2.ledger
      = [entrySeed] := by
    simp only [handlePurchaseFallible, if_neg hb, hcd]
    rfl
  refine ⟨?_, hred, ?_, ?_, ?_⟩
  · simp only [handlePurchaseFallible, if_neg hb, hcd]
    rfl
  · rw [hred]
    simp [dbC3, emptyDB]
  · rw [hled]
    simp [dbC3, emptyDB, entrySeed]
  · intro e he
    rw [hled] at he
    simp only [List.mem_singleton] at he
    subst he
    simp [entrySeed]

/-- Witness for C3 (amended): the interrupted-before-any-write case on the
same concrete database leaves it exactly unchanged. -/
theorem purchase_not_transactional_witness :
    (handlePurchaseFallible dbC3 itemC8 5 true (some 0)).2 = dbC3 := by
  have hbal : getCurrentBalance dbC3 = 1000 := by
    norm_num [getCurrentBalance, dbC3, emptyDB, entrySeed]
  exact (purchase_not_transactional dbC3 itemC8 5
    (by rw [hbal]; norm_num [itemC8]) (by rfl)).1

theorem finishTimer_shape (db : DB) (todayStart st et tp : ℤ) (domId : ℕ)
    (actId : Option ℕ) :
    (finishTimerAward db todayStart st et tp domId actId).2.redemptions =
      db.redemptions ∧
    (finishTimerAward db todayStart st et tp domId actId).2.nextRedemptionId =
      db.nextRedemptionId ∧
    ((finishTimerAward db todayStart st et tp domId actId).2.ledger = db.ledger ∨
      ∃ e, (finishTimerAward db todayStart st et tp domId actId).2.ledger =
          db.ledger ++ [e] ∧ e.kind = EntryKind.earn_session) := by
  by_cases h1 : (⌊((et - st - tp : ℤ) : ℚ) / 1000 / 60⌋ : ℤ) < 1
  · simp only [finishTimerAward, if_pos h1]
    refine ⟨?_, ?_, Or.inl ?_⟩ <;> first | rfl | trivial
  cases hfind : db.domains.find? (fun d => d.id == domId) with
  | none =>
      simp only [finishTimerAward, if_neg h1, hfind]
      refine ⟨?_, ?_, Or.inl ?_⟩ <;> first | rfl | trivial
  | some domain =>
      by_cases hcap : getTotalMinutesToday db todayStart +
          ⌊((et - st - tp : ℤ) : ℚ) / 1000 / 60⌋ > DAILY_HARD_CAP_MINUTES
      · simp only [finishTimerAward, if_neg h1, hfind]
        rw [if_pos hcap]
        refine ⟨?_, ?_, Or.inl ?_⟩ <;> first | rfl | trivial
      · rw [finishTimer_success db todayStart st et tp domId actId domain _ rfl hfind h1 hcap]
        exact ⟨rfl, rfl, Or.inr ⟨_, rfl, rfl⟩⟩

theorem addManual_shape (db : DB) (domId : ℕ) (actId : Option ℕ) (dur : ℤ)
    (notes : Option String) (now : ℤ) :
    (addManualSession db domId actId dur notes now).2.redemptions = db.redemptions ∧
    (addManualSession db domId actId dur notes now).2.nextRedemptionId =
      db.nextRedemptionId ∧
    ((addManualSession db domId actId dur notes now).2.ledger = db.ledger ∨
      ∃ e, (addManualSession db domId actId dur notes now).2.ledger =
          db.ledger ++ [e] ∧ e.kind = EntryKind.earn_session) := by
  by_cases h0 : dur ≤ 0
  · simp only [addManualSession, if_pos h0]
    refine ⟨?_, ?_, Or.inl ?_⟩ <;> first | rfl | trivial
  cases hfind : db.domains.find? (fun d => d.id == domId) with
  | none =>
      simp only [addManualSession, if_neg h0, hfind]
      refine ⟨?_, ?_, Or.inl ?_⟩ <;> first | rfl | trivial
  | some domain =>
      rw [addManual_success db domId actId dur notes now domain hfind h0]
      exact ⟨rfl, rfl, Or.inr ⟨_, rfl, rfl⟩⟩

theorem addBonus_shape (db : DB) (title : String) (points : ℤ) (notes : Option String)
    (now : ℤ) :
    (addBonus db title points notes now).2.redemptions = db.redemptions ∧
    (addBonus db title points notes now).2.nextRedemptionId = db.nextRedemptionId ∧
    ((addBonus db title points notes now).2.ledger = db.ledger ∨
      ∃ e, (addBonus db title points notes now).2.ledger = db.ledger ++ [e] ∧
        e.kind = EntryKind.earn_bonus) := by
  by_cases h0 : points ≤ 0
  · simp only [addBonus, if_pos h0]
    refine ⟨?_, ?_, Or.inl ?_⟩ <;> first | rfl | trivial
  · simp only [addBonus, if_neg h0]
    refine ⟨?_, ?_, Or.inr
      ⟨{ id := db.nextLedgerId, timestamp := now, kind := .earn_bonus,
         pointsDelta := (points : ℚ), referenceId := db.nextBonusId,
         description := "Bonus: " ++ title }, ?_, ?_⟩⟩ <;> first | rfl | trivial

theorem handlePurchase_cases (db : DB) (item : ShopItem) (now : ℤ) (confirmed : Bool) :
    ((handlePurchase db item now confirmed).2 = db ∧
      ∀ rid, (handlePurchase db item now confirmed).1 ≠ PurchaseOutcome.purchased rid) ∨
    ((handlePurchase db item now confirmed).1 =
        PurchaseOutcome.purchased db.nextRedemptionId ∧
      (handlePurchase db item now confirmed).2 =
        { db with
            redemptions := db.redemptions ++ [purchasedRedemption db item now],
            nextRedemptionId := db.nextRedemptionId + 1,
            ledger := db.ledger ++ [purchasedEntry db item now],
            nextLedgerId := db.nextLedgerId + 1 }) := by
  by_cases hb : getCurrentBalance db < item.pricePoints
  · left
    simp only [handlePurchase, if_pos hb]
    refine ⟨by first | rfl | trivial, by intro rid; simp⟩
  cases hcd : cooldownHit item now (recentRedemptions db) with
  | some r =>
      left
      simp only [handlePurchase, if_neg hb, hcd]
      refine ⟨by first | rfl | trivial, by intro rid; simp⟩
  | none =>
      cases confirmed with
      | false =>
          left
          simp only [handlePurchase, if_neg hb, hcd]
          refine ⟨by first | rfl | trivial, by intro rid; simp⟩
      | true =>
          right
          simp only [handlePurchase, if_neg hb, hcd]
          refine ⟨?_, ?_⟩ <;> first | rfl | trivial

theorem J_extend {db db' : DB} (es : List LedgerEntry)
    (hr : db'.redemptions = db.redemptions)
    (hn : db'.nextRedemptionId = db.nextRedemptionId)
    (hl : db'.ledger = db.ledger ++ es)
    (hes : ∀ e ∈ es, e.kind ≠ EntryKind.spend_shop)
    (hJ : J db) : J db' := by
  obtain ⟨h1, h2, h3⟩ := hJ
  refine ⟨?_, ?_, ?_⟩
  · intro r hr'
    rw [hr] at hr'
    rw [hn]
    exact h1 r hr'
  · intro e he hk
    rw [hl] at he
    rw [hn]
    rcases List.mem_append.mp he with he | he
    · exact h2 e he hk
    · exact absurd hk (hes e he)
  · intro r hr'
    rw [hr] at hr'
    have hfil : es.filter (spendMatch r) = [] := by
      rw [List.filter_eq_nil_iff]
      intro a ha
      simp only [spendMatch, Bool.and_eq_true, decide_eq_true_eq, not_and]
      intro hk
      exact absurd hk (hes a ha)
    constructor
    · rw [hl, List.filter_append, hfil, List.append_nil]
      exact (h3 r hr').1
    · intro e he hm
      rw [hl] at he
      rcases List.mem_append.mp he with he | he
      · exact (h3 r hr').2 e he hm
      · exfalso
        simp only [spendMatch, Bool.and_eq_true, decide_eq_true_eq] at hm
        exact absurd hm.1 (hes e he)

theorem J_purchase (db : DB) (item : ShopItem) (now : ℤ) (confirmed : Bool)
    (hJ : J db) : J (handlePurchase db item now confirmed).2 := by
  rcases handlePurchase_cases db item now confirmed with ⟨heq, -⟩ | ⟨-, heq⟩
  · rw [heq]
    exact hJ
  obtain ⟨h1, h2, h3⟩ := hJ
  rw [heq]
  refine ⟨?_, ?_, ?_⟩
  · intro r hr
    rcases List.mem_append.mp hr with hr | hr
    · exact Nat.lt_succ_of_lt (h1 r hr)
    · simp only [List.mem_singleton] at hr
      subst hr
      exact Nat.lt_succ_self _
  · intro e he hk
    rcases List.mem_append.mp he with he | he
    · exact Nat.lt_succ_of_lt (h2 e he hk)
    · simp only [List.mem_singleton] at he
      subst he
      exact Nat.lt_succ_self _
  · intro r hr
    rcases List.mem_append.mp hr with hr | hr
    · have hne : spendMatch r (purchasedEntry db item now) = false := by
        simp [spendMatch, purchasedEntry, ne_of_gt (h1 r hr)]
      constructor
      · rw [List.filter_append]
        have hone : List.filter (spendMatch r) [purchasedEntry db item now] = [] := by
          simp [hne]
        rw [hone, List.append_nil]
        exact (h3 r hr).1
      · intro e he hm
        rcases List.mem_append.mp he with he | he
        · exact (h3 r hr).2 e he hm
        · simp only [List.mem_singleton] at he
          subst he
          rw [hne] at hm
          simp at hm
    · simp only [List.mem_singleton] at hr
      subst hr
      have hold : List.filter (spendMatch (purchasedRedemption db item now)) db.ledger
          = [] := by
        rw [List.filter_eq_nil_iff]
        intro e he
        simp only [spendMatch, purchasedRedemption, Bool.and_eq_true, decide_eq_true_eq,
          not_and]
        intro hk
        exact ne_of_lt (h2 e he hk)
      have hnew : spendMatch (purchasedRedemption db item now)
          (purchasedEntry db item now) = true := by
        simp [spendMatch, purchasedRedemption, purchasedEntry]
      constructor
      · rw [List.filter_append, hold]
        simp [hnew]
      · intro e he hm
        rcases List.mem_append.mp he with he | he
        · exfalso
          rw [List.filter_eq_nil_iff] at hold
          exact hold e he hm
        · simp only [List.mem_singleton] at he
          subst he
          simp [purchasedEntry, purchasedRedemption]

theorem J_init : J initDB := by
  have hred : initDB.redemptions = [] := initDB_history.2.2.1
  have hled : initDB.ledger = [] := initDB_history.2.2.2.1
  refine ⟨?_, ?_, ?_⟩
  · intro r hr
    rw [hred] at hr
    cases hr
  · intro e he
    rw [hled] at he
    cases he
  · intro r hr
    rw [hred] at hr
    cases hr

theorem J_step {db db' : DB} (h : Step db db') (hJ : J db) : J db' := by
  cases h with
  | timer todayStart st et tp domId actId =>
      obtain ⟨hr, hn, hl⟩ := finishTimer_shape db todayStart st et tp domId actId
      rcases hl with hl | ⟨e, hl, hk⟩
      · exact J_extend [] hr hn (by rw [hl, List.append_nil]) (by simp) hJ
      · refine J_extend [e] hr hn hl ?_ hJ
        intro e' he'
        simp only [List.mem_singleton] at he'
        subst he'
        rw [hk]
        simp
  | manual domId actId dur notes now =>
      obtain ⟨hr, hn, hl⟩ := addManual_shape db domId actId dur notes now
      rcases hl with hl | ⟨e, hl, hk⟩
      · exact J_extend [] hr hn (by rw [hl, List.append_nil]) (by simp) hJ
      · refine J_extend [e] hr hn hl ?_ hJ
        intro e' he'
        simp only [List.mem_singleton] at he'
        subst he'
        rw [hk]
        simp
  | purchase item now confirmed =>
      exact J_purchase db item now confirmed hJ
  | bonus title points notes now =>
      obtain ⟨hr, hn, hl⟩ := addBonus_shape db title points notes now
      rcases hl with hl | ⟨e, hl, hk⟩
      · exact J_extend [] hr hn (by rw [hl, List.append_nil]) (by simp) hJ
      · refine J_extend [e] hr hn hl ?_ hJ
        intro e' he'
        simp only [List.mem_singleton] at he'
        subst he'
        rw [hk]
        simp
  | importCfg config =>
      obtain ⟨-, -, hr, hl, -, -, hn, -⟩ := catalogOnly_import db config
      exact J_extend [] hr hn (by rw [hl, List.append_nil]) (by simp) hJ
  | toggle domId isActive =>
      exact J_extend [] rfl rfl (by simp [toggleDomain]) (by simp) hJ

theorem J_reachable {db : DB} (h : Reachable db) : J db := by
  have h' : Relation.ReflTransGen Step initDB db := h
  induction h' with
  | refl => exact J_init
  | tail hpre hstep ih => exact J_step hstep (ih hpre)

/-- C9: in every state reachable by the engine's operations, every
Redemption has exactly one `spend_shop` LedgerEntry whose `referenceId` is
the Redemption's id and whose `pointsDelta` is the negated price snapshot;
no operation ever removes or mutates an existing Redemption (so the
snapshot survives later catalog changes); and a successful purchase records
the Redemption with `pricePoints` copied from the item at purchase time. -/
theorem redemption_ledger_pairing :
    (∀ db, Reachable db → ∀ r ∈ db.redemptions,
      (db.ledger.filter (spendMatch r)).length = 1 ∧
      ∀ e ∈ db.ledger, spendMatch r e = true → e.pointsDelta = -r.pricePoints) ∧
    (∀ db db', Step db db' → ∀ r ∈ db.redemptions, r ∈ db'.redemptions) ∧
    (∀ db item now confirmed rid,
      (handlePurchase db item now confirmed).1 = PurchaseOutcome.purchased rid →
      purchasedRedemption db item now ∈
        (handlePurchase db item now confirmed).2.redemptions ∧
      (purchasedRedemption db item now).pricePoints = item.pricePoints) := by
  refine ⟨?_, ?_, ?_⟩
  · intro db hreach
    exact (J_reachable hreach).2.2
  · intro db db' hstep r hr
    cases hstep with
    | timer todayStart st et tp domId actId =>
        rw [(finishTimer_shape db todayStart st et tp domId actId).1]
        exact hr
    | manual domId actId dur notes now =>
        rw [(addManual_shape db domId actId dur notes now).1]
        exact hr
    | purchase item now confirmed =>
        rcases handlePurchase_cases db item now confirmed with ⟨heq, -⟩ | ⟨-, heq⟩
        · rw [heq]
          exact hr
        · rw [heq]
          exact List.mem_append_left _ hr
    | bonus title points notes now =>
        rw [(addBonus_shape db title points notes now).1]
        exact hr
    | importCfg config =>
        rw [(catalogOnly_import db config).2.2.1]
        exact hr
    | toggle domId isActive =>
        exact hr
  · intro db item now confirmed rid hres
    rcases handlePurchase_cases db item now confirmed with ⟨-, hne⟩ | ⟨-, heq⟩
    · exact absurd hres (hne rid)
    · rw [heq]
      exact ⟨List.mem_append_right _ (List.mem_singleton_self _), rfl⟩

/-- Witness for C9: after one purchase of `itemW9` from the initial store,
the reached state has exactly one `spend_shop` entry matching the new
redemption. -/
theorem redemption_ledger_pairing_witness :
    ((handlePurchase initDB itemW9 0 true).2.ledger.filter
      (spendMatch (purchasedRedemption initDB itemW9 0))).length = 1 := by
  have hb : ¬ getCurrentBalance initDB < itemW9.pricePoints := by
    have hl : initDB.ledger = [] := initDB_history.2.2.2.1
    rw [getCurrentBalance, hl]
    norm_num [itemW9]
  have hcd : cooldownHit itemW9 0 (recentRedemptions initDB) = none := by
    simp [cooldownHit, itemW9]
  have hreach : Reachable (handlePurchase initDB itemW9 0 true).2 :=
    Relation.ReflTransGen.single (Step.purchase initDB itemW9 0 true)
  have hmem : purchasedRedemption initDB itemW9 0 ∈
      (handlePurchase initDB itemW9 0 true).2.redemptions := by
    have heq : (handlePurchase initDB itemW9 0 true).2.redemptions =
        initDB.redemptions ++ [purchasedRedemption initDB itemW9 0] := by
      simp only [handlePurchase, if_neg hb, hcd]
      rfl
    rw [heq]
    exact List.mem_append_right _ (List.mem_singleton_self _)
  exact (redemption_ledger_pairing.1 (handlePurchase initDB itemW9 0 true).2 hreach
    (purchasedRedemption initDB itemW9 0) hmem).1

end Gamify

